import Mathlib

/-!
Verification of the UE5 NVIDIA Ansel photography plugin
(`FNVAnselCameraPhotographyPrivate`, `UAnselFunctionLibrary`, `FAnselModule`).

The engine's console-variable subsystem is modelled as an association list
from CVar names to rational values (floats are modelled exactly as `ℚ`
where only storing/restoring/comparing happens, and as `ℝ` for the one
function that needs a square root).  The provider's per-frame session state
machine (`UpdateCamera`), the capture/session callbacks, the CVar
capture/restore machinery and the Blueprint function library are shallowly
embedded below, following the source control flow block by block.
-/

namespace Ansel

/-! ### Console-variable store (engine side) and captured-value map -/

/-- Association-list lookup; models `IConsoleManager::FindConsoleVariable`
followed by `GetFloat`, and also `TMap::Find`. -/
def alookup : List (String × ℚ) → String → Option ℚ
  | [], _ => none
  | (k, v) :: rest, n => if k = n then some v else alookup rest n

/-- The engine's set of registered console variables, keyed by name. -/
abbrev CVarStore := List (String × ℚ)

/-- The provider's `InitialCVarMap` of first-captured values. -/
abbrev CVarMap := List (String × ℚ)

/-- Writing through a found `IConsoleVariable*`: replaces the value of an
existing variable, leaves the store unchanged if the name is unregistered
(every `Set`/`SetWithCurrentPriority` in the source happens through a
pointer obtained from a successful find). -/
def setCVar : CVarStore → String → ℚ → CVarStore
  | [], _, _ => []
  | (k, v) :: rest, n, w =>
      if k = n then (k, w) :: rest else (k, v) :: setCVar rest n w

/-- `TMap::Add`: replace the entry for an existing key, append otherwise. -/
def mapAdd : CVarMap → String → ℚ → CVarMap
  | [], n, v => [(n, v)]
  | (k, w) :: rest, n, v =>
      if k = n then (n, v) :: rest else (k, w) :: mapAdd rest n v

/-- `GetInt`/`GetFloat` on a `TAutoConsoleVariable` that is statically
registered with a default value: the default is returned only in the
(impossible in the engine) case that the variable is absent from the store. -/
def getCVarD (st : CVarStore) (n : String) (d : ℚ) : ℚ :=
  (alookup st n).getD d

/-! ### Engine state touched by the plugin -/

/-- The slice of host-engine state the plugin reads, overrides and restores. -/
structure EngineState where
  cvars : CVarStore
  paused : Bool
  timeDilation : ℚ
  cameraMovableWhenPaused : Bool
  screenMessagesEnabled : Bool
  hudExists : Bool
  showingHUD : Bool
  subtitlesEnabled : Bool
  fadingEnabled : Bool
  deriving Repr, DecidableEq

/-- `ansel::CaptureConfiguration::captureType` values used by the source. -/
inductive CaptureType
  | regular
  | superResolution
  | stereo
  | s360Mono
  | s360Stereo
  deriving Repr, DecidableEq

/-- Fields of `FNVAnselCameraPhotographyPrivate` that the session state
machine reads and writes. -/
structure AnselState where
  bAnselSessionActive : Bool := false
  bAnselSessionNewlyActive : Bool := false
  bAnselSessionWantDeactivate : Bool := false
  bAnselCaptureActive : Bool := false
  bAnselCaptureNewlyActive : Bool := false
  bAnselCaptureNewlyFinished : Bool := false
  captureType : CaptureType := .regular
  bForceDisallow : Bool := false
  bIsOrthoProjection : Bool := false
  bWasMovableCameraBeforeSession : Bool := false
  bWasPausedBeforeSession : Bool := false
  bWasShowingHUDBeforeSession : Bool := false
  bWereSubtitlesEnabledBeforeSession : Bool := false
  bWasFadingEnabledBeforeSession : Bool := false
  bWasScreenMessagesEnabledBeforeSession : Bool := false
  fTimeDilationBeforeSession : ℚ := 0
  bCameraIsInOriginalState : Bool := true
  bAutoPostprocess : Bool := false
  bAutoPause : Bool := false
  bRayTracingEnabled : Bool := false
  bPausedInternally : Bool := false
  bHighQualityModeDesired : Bool := false
  bHighQualityModeIsSetup : Bool := false
  bHighLodDesired : Bool := false
  bHighLodIsSetup : Bool := false
  bHighLumenDesired : Bool := false
  bHighLumenIsSetup : Bool := false
  bHighSkyLightDesired : Bool := false
  bHighSkyLightIsSetup : Bool := false
  bHighAntiAliasingDesired : Bool := false
  bHighAntiAliasingIsSetup : Bool := false
  bHighSgQualityDesired : Bool := false
  bHighSgQualityIsSetup : Bool := false
  bUIControlsNeedRebuild : Bool := false
  numFramesSinceSessionStart : Nat := 0
  initialCVarMap : CVarMap := []
  deriving Repr, DecidableEq

/-- Combined provider + engine state (plus the Ansel log). -/
structure GState where
  eng : EngineState
  ans : AnselState
  log : List String
  deriving Repr, DecidableEq

/-! ### CVar capture/restore machinery -/

/-- `FNVAnselCameraPhotographyPrivate::CaptureCVar`: look the variable up,
return `false` if unknown, otherwise record its current float value in
`InitialCVarMap`. -/
def captureCVar (s : GState) (name : String) : Bool × GState :=
  match alookup s.eng.cvars name with
  | none => (false, s)
  | some v =>
      (true,
       { s with ans := { s.ans with
           initialCVarMap := mapAdd s.ans.initialCVarMap name v } })

/-- `SetCapturedCVarPredicated`: capture the variable on first touch, then
set it (to the captured value when `wantReset`, else to `valueIfNotReset`)
when the comparison against the captured value passes; log and do nothing
when the console manager does not know the variable.
`useExistingPriority` selects `SetWithCurrentPriority` over `Set`, which
agree on the stored value. -/
def setCapturedCVarPredicated (s : GState) (name : String) (valueIfNotReset : ℚ)
    (comparison : ℚ → ℚ → Bool) (wantReset : Bool) (useExistingPriority : Bool) :
    GState :=
  match alookup s.ans.initialCVarMap name, alookup s.eng.cvars name with
  | some v0, _ =>
      -- `InitialCVarMap.Contains(CVarName)`: already captured, `fInitialVal = v0`
      if comparison valueIfNotReset v0 then
        let _ := useExistingPriority
        { s with eng := { s.eng with
            cvars := setCVar s.eng.cvars name
              (if wantReset then v0 else valueIfNotReset) } }
      else s
  | none, some w =>
      -- `CaptureCVar(CVarName)` succeeds and records `fInitialVal = w`
      let s1 : GState :=
        { s with ans := { s.ans with
            initialCVarMap := mapAdd s.ans.initialCVarMap name w } }
      if comparison valueIfNotReset w then
        { s1 with eng := { s1.eng with
            cvars := setCVar s1.eng.cvars name
              (if wantReset then w else valueIfNotReset) } }
      else s1
  | none, none =>
      -- `if (!(info && info->cvar)) UE_LOG(... not found ...)`
      { s with log := s.log ++ ["CVar used by Ansel not found: " ++ name] }

/-- `SetCapturedCVar`: the predicated version with an always-true comparison. -/
def setCapturedCVar (s : GState) (name : String) (valueIfNotReset : ℚ)
    (wantReset : Bool := false) (useExistingPriority : Bool := false) : GState :=
  setCapturedCVarPredicated s name valueIfNotReset (fun _ _ => true)
    wantReset useExistingPriority

/-- Session-end loop over `InitialCVarMap`: each captured variable is set
back (with current priority) to its first-captured value. -/
def restoreCVars (st : CVarStore) (m : CVarMap) : CVarStore :=
  m.foldl (fun acc p => setCVar acc p.1 p.2) st

/-- `SetUpSessionCVars`: CVar tweaks applied at session start. -/
def setUpSessionCVars (s : GState) : GState :=
  let s := setCapturedCVar s "r.oneframethreadlag" 1
  let s := setCapturedCVar s "r.streaming.minmipforsplitrequest" 1
  let s := setCapturedCVar s "r.streaming.hiddenprimitivescale" (1/1000)
  let s := setCapturedCVar s "r.Streaming.Boost" 1
  setCapturedCVar s "r.motionblurquality" 0

/-! ### Module startup / provider creation (C3) -/

/-- `FAnselModule::StartupModule`: `bAnselDLLLoaded` records whether
`GetDllHandle` returned a non-zero handle. -/
def startupModule (dllHandle : Nat) : Bool :=
  dllHandle ≠ 0

/-- What the provider constructor does when it runs: the console-variable
sink and the Ansel configuration are only registered when the DLL loaded. -/
structure ProviderInit where
  sinkRegistered : Bool
  anselConfigured : Bool
  deriving Repr, DecidableEq

/-- `FNVAnselCameraPhotographyPrivate` constructor effect. -/
def constructPrivate (bAnselDLLLoaded : Bool) : ProviderInit :=
  { sinkRegistered := bAnselDLLLoaded, anselConfigured := bAnselDLLLoaded }

/-- `FNVAnselCameraPhotographyPrivate::IsSupported`. -/
def isSupported (bAnselDLLLoaded anselAvailable : Bool) : Bool :=
  bAnselDLLLoaded && anselAvailable

/-- `FAnselModule::CreateCameraPhotography`: the freshly built provider is
returned only when supported, otherwise deleted and `nullptr` returned. -/
def createCameraPhotography (bAnselDLLLoaded anselAvailable : Bool) :
    Option ProviderInit :=
  let p := constructPrivate bAnselDLLLoaded
  if isSupported bAnselDLLLoaded anselAvailable then some p else none

/-! ### Post-process settings slice (`FPostProcessSettings`) -/

/-- The post-process fields `ConfigureRenderingSettingsForPhotography`
reads or writes, with their override bits. -/
structure PPSettings where
  bOverride_MotionBlurAmount : Bool := false
  MotionBlurAmount : ℚ := 0
  bOverride_BloomDirtMaskIntensity : Bool := false
  BloomDirtMaskIntensity : ℚ := 0
  bOverride_LensFlareIntensity : Bool := false
  LensFlareIntensity : ℚ := 0
  bOverride_VignetteIntensity : Bool := false
  VignetteIntensity : ℚ := 0
  bOverride_SceneFringeIntensity : Bool := false
  SceneFringeIntensity : ℚ := 0
  bOverride_AutoExposureSpeedDown : Bool := false
  AutoExposureSpeedDown : ℚ := 0
  bOverride_AutoExposureSpeedUp : Bool := false
  AutoExposureSpeedUp : ℚ := 0
  bOverride_ScreenPercentage_DEPRECATED : Bool := false
  ScreenPercentage_DEPRECATED : ℚ := 100
  bOverride_DepthOfFieldScale : Bool := false
  DepthOfFieldScale : ℚ := 0
  bOverride_DepthOfFieldNearBlurSize : Bool := false
  DepthOfFieldNearBlurSize : ℚ := 0
  bOverride_DepthOfFieldFarBlurSize : Bool := false
  DepthOfFieldFarBlurSize : ℚ := 0
  bOverride_DepthOfFieldDepthBlurRadius : Bool := false
  DepthOfFieldDepthBlurRadius : ℚ := 0
  bOverride_DepthOfFieldVignetteSize : Bool := false
  DepthOfFieldVignetteSize : ℚ := 100
  bOverride_ScreenSpaceReflectionIntensity : Bool := false
  ScreenSpaceReflectionIntensity : ℚ := 0
  deriving Repr, DecidableEq

/-! ### Quality-boost CVar tables (`ConfigureRenderingSettingsForPhotography`) -/

/-- Comparison wired into `SetCapturedCVarPredicated` by the `QUALITY_CVAR*`
macros: unconditional, `std::greater` (at least) or `std::less` (at most). -/
inductive CmpKind
  | always
  | atLeast
  | atMost
  deriving Repr, DecidableEq

/-- One `*_CVAR(NAME, BOOSTVAL)` macro invocation. -/
structure QEntry where
  name : String
  val : ℚ
  cmp : CmpKind
  useExistingPriority : Bool := true

def cmpFun : CmpKind → ℚ → ℚ → Bool
  | .always, _, _ => true
  | .atLeast, a, b => decide (a > b)
  | .atMost, a, b => decide (a < b)

/-- Run one macro invocation with the block's `wantReset` flag. -/
def applyQEntry (wantReset : Bool) (s : GState) (e : QEntry) : GState :=
  setCapturedCVarPredicated s e.name e.val (cmpFun e.cmp) wantReset e.useExistingPriority

def applyQList (s : GState) (wantReset : Bool) (l : List QEntry) : GState :=
  l.foldl (applyQEntry wantReset) s

/-- `LOD_CVAR` block. -/
def lodCVarList : List QEntry :=
  [ ⟨"r.TextureStreaming", 0, .always, true⟩,
    ⟨"r.ForceLOD", 0, .always, true⟩,
    ⟨"r.particlelodbias", -10, .always, true⟩,
    ⟨"foliage.DitheredLOD", 0, .always, true⟩,
    ⟨"foliage.ForceLOD", 0, .always, true⟩,
    ⟨"Foliage.MinimumScreenSize", 1/100000000, .always, true⟩ ]

/-- `LUMEN_CVAR` block. -/
def lumenCVarList : List QEntry :=
  [ ⟨"r.DistanceFields.MaxPerMeshResolution", 256, .always, true⟩,
    ⟨"r.Lumen.ScreenProbeGather.ScreenSpaceBentNormal.ApplyDuringIntegration", 0, .always, true⟩,
    ⟨"r.LumenScene.DirectLighting.OffscreenShadowing.TraceMeshSDFs", 0, .always, true⟩,
    ⟨"r.Lumen.HardwareRayTracing", 1, .always, true⟩,
    ⟨"r.Lumen.TranslucencyVolume.TraceFromVolume", 0, .always, true⟩,
    ⟨"r.Lumen.Reflections.RadianceCache", 1, .always, true⟩,
    ⟨"r.LumenScene.Radiosity.ProbeSpacing", 8, .always, true⟩,
    ⟨"r.LumenScene.Radiosity.ProbeOcclusion", 0, .always, true⟩,
    ⟨"r.LumenScene.FarField", 1, .always, true⟩,
    ⟨"r.LumenScene.FarField.MaxTraceDistance", 1000000, .always, true⟩,
    ⟨"r.Lumen.HardwareRayTracing.MaxIterations", 128, .always, true⟩ ]

/-- `SKYLIGHT_CVAR` block. -/
def skylightCVarList : List QEntry :=
  [ ⟨"r.SkyLight.RealTimeReflectionCapture.TimeSlice", 0, .always, true⟩,
    ⟨"r.VolumetricRenderTarget", 0, .always, true⟩ ]

/-- `SQQUALITY_CVAR` block. -/
def sgQualityCVarList : List QEntry :=
  [ ⟨"sg.ViewDistanceQuality", 4, .always, true⟩,
    ⟨"sg.AntiAliasingQuality", 4, .always, true⟩,
    ⟨"sg.ShadowQuality", 4, .always, true⟩,
    ⟨"sg.PostProcessQuality", 4, .always, true⟩,
    ⟨"sg.TextureQuality", 4, .always, true⟩,
    ⟨"sg.FoliageQuality", 4, .always, true⟩,
    ⟨"sg.ShadingQuality", 4, .always, true⟩ ]

/-- `ANTIALIASING_CVAR` block. -/
def antiAliasingCVarList : List QEntry :=
  [ ⟨"r.AntiAliasingMethod", 2, .always, true⟩,
    ⟨"r.TemporalAASamples", 64, .always, true⟩,
    ⟨"r.TemporalAAFilterSize", 1, .always, true⟩,
    ⟨"r.TemporalAA.Quality", 2, .always, true⟩ ]

/-- Main high-quality block. -/
def qualityMainCVarList : List QEntry :=
  [ ⟨"r.ScreenPercentage", 100, .atLeast, false⟩,
    ⟨"r.StaticMeshLODDistanceScale", 1/4, .atMost, true⟩,
    ⟨"r.skeletalmeshlodbias", -10, .atMost, true⟩,
    ⟨"r.D3D12.GPUTimeout", 0, .always, true⟩,
    ⟨"a.URO.Enable", 0, .always, true⟩,
    ⟨"foliage.DensityScale", 1, .atLeast, true⟩,
    ⟨"grass.DensityScale", 1, .atLeast, true⟩,
    ⟨"foliage.LODDistanceScale", 4, .atLeast, true⟩,
    ⟨"r.TranslucencyLightingVolumeDim", 64, .atLeast, true⟩,
    ⟨"r.RefractionQuality", 2, .always, true⟩,
    ⟨"r.SSR.Quality", 4, .always, true⟩,
    ⟨"r.TranslucencyVolumeBlur", 1, .always, true⟩,
    ⟨"r.MaterialQualityLevel", 1, .always, true⟩,
    ⟨"r.SSS.Scale", 1, .always, true⟩,
    ⟨"r.SSS.SampleSet", 2, .always, true⟩,
    ⟨"r.SSS.Quality", 1, .always, true⟩,
    ⟨"r.SSS.HalfRes", 0, .always, true⟩,
    ⟨"r.ParticleLightQuality", 2, .always, true⟩,
    ⟨"r.DetailMode", 2, .always, true⟩,
    ⟨"r.Streaming.MipBias", 0, .always, true⟩,
    ⟨"r.MaxAnisotropy", 16, .atLeast, true⟩,
    ⟨"r.Streaming.MaxEffectiveScreenSize", 0, .always, true⟩,
    ⟨"r.ViewDistanceScale", 50, .atLeast, true⟩,
    ⟨"r.LightFunctionQuality", 2, .atLeast, true⟩,
    ⟨"r.ShadowQuality", 5, .always, true⟩,
    ⟨"r.Shadow.CSM.MaxCascades", 10, .atLeast, true⟩,
    ⟨"r.Shadow.MaxResolution", 4096, .atLeast, true⟩,
    ⟨"r.Shadow.MaxCSMResolution", 4096, .atLeast, true⟩,
    ⟨"r.Shadow.RadiusThreshold", 1/1000, .atMost, true⟩,
    ⟨"r.Shadow.DistanceScale", 10, .always, true⟩,
    ⟨"r.Shadow.CSM.TransitionScale", 1, .always, true⟩,
    ⟨"r.Shadow.PreShadowResolutionFactor", 1, .always, true⟩,
    ⟨"r.AOQuality", 2, .always, true⟩,
    ⟨"r.VolumetricFog", 1, .always, true⟩,
    ⟨"r.VolumetricFog.GridPixelSize", 4, .always, true⟩,
    ⟨"r.VolumetricFog.GridSizeZ", 128, .always, true⟩,
    ⟨"r.VolumetricFog.HistoryMissSupersampleCount", 16, .atLeast, true⟩,
    ⟨"r.LightMaxDrawDistanceScale", 4, .atLeast, true⟩ ]

/-- Ray-tracing sub-block of the high-quality block. -/
def qualityRTCVarList : List QEntry :=
  [ ⟨"D3D12.PSO.StallTimeoutInMs", 8000, .atLeast, true⟩,
    ⟨"r.RayTracing.AmbientOcclusion.SamplesPerPixel", 3, .atLeast, true⟩,
    ⟨"r.raytracing.reflections.rendertilesize", 128, .always, true⟩,
    ⟨"r.RayTracing.Reflections.MaxBounces", 2, .atLeast, true⟩,
    ⟨"r.RayTracing.Reflections.MaxRoughness", 9/10, .atLeast, true⟩,
    ⟨"r.RayTracing.Reflections.MaxRayDistance", 1000000, .atLeast, true⟩,
    ⟨"r.RayTracing.Reflections.SortMaterials", 1, .always, true⟩,
    ⟨"r.RayTracing.Reflections.DirectLighting", 1, .always, true⟩,
    ⟨"r.RayTracing.Reflections.Shadows", 1, .atLeast, true⟩,
    ⟨"r.RayTracing.Reflections.HeightFog", 1, .always, true⟩,
    ⟨"r.RayTracing.Reflections.ReflectionCaptures", 1, .always, true⟩,
    ⟨"r.RayTracing.Reflections.ScreenPercentage", 100, .atLeast, true⟩,
    ⟨"r.RayTracing.Translucency.MaxRoughness", 9/10, .atLeast, true⟩,
    ⟨"r.RayTracing.Translucency.MaxRayDistance", 1000000, .atLeast, true⟩,
    ⟨"r.RayTracing.Translucency.MaxRefractionRays", 11, .atLeast, true⟩,
    ⟨"r.RayTracing.Translucency.Shadows", 1, .atLeast, true⟩,
    ⟨"r.RayTracing.Shadow.MaxLights", -1, .always, true⟩,
    ⟨"r.RayTracing.Shadow.MaxDenoisedLights", -1, .always, true⟩,
    ⟨"r.raytracing.lighting.maxshadowlights", 256, .atLeast, true⟩,
    ⟨"r.RayTracing.lighting.maxlights", 256, .atLeast, true⟩ ]

/-- Head of the `CVarExtreme` block (streaming/draw-distance). -/
def extremeCVarList : List QEntry :=
  [ ⟨"r.Streaming.LimitPoolSizeToVRAM", 0, .always, true⟩,
    ⟨"r.Streaming.PoolSize", 3000, .atLeast, true⟩,
    ⟨"r.streaming.hlodstrategy", 2, .always, true⟩,
    ⟨"r.viewdistancescale", 10, .atLeast, true⟩ ]

/-- Ray-tracing sub-block of the `CVarExtreme` block. -/
def extremeRTCVarList : List QEntry :=
  [ ⟨"r.RayTracing.Translucency.MaxRoughness", 1, .atLeast, true⟩,
    ⟨"r.RayTracing.Reflections.MaxRoughness", 1, .atLeast, true⟩,
    ⟨"r.raytracing.GlobalIllumination.rendertilesize", 128, .always, true⟩,
    ⟨"r.RayTracing.GlobalIllumination.ScreenPercentage", 50, .always, true⟩,
    ⟨"r.RayTracing.GlobalIllumination.MaxRayDistance", 7500, .always, true⟩,
    ⟨"r.RayTracing.GlobalIllumination.SamplesPerPixel", 4, .atLeast, true⟩,
    ⟨"r.RayTracing.GlobalIllumination.NextEventEstimationSamples", 16, .atLeast, true⟩,
    ⟨"r.GlobalIllumination.Denoiser.ReconstructionSamples", 56, .atLeast, true⟩,
    ⟨"r.RayTracing.GlobalIllumination", 1, .always, true⟩,
    ⟨"r.RayTracing.StochasticRectLight.SamplesPerPixel", 4, .atLeast, true⟩,
    ⟨"r.RayTracing.SkyLight.SamplesPerPixel", 4, .atLeast, true⟩ ]

/-- Tail of the `CVarExtreme` block. -/
def extremeTailCVarList : List QEntry :=
  [ ⟨"r.particlelodbias", -10, .always, true⟩ ]

/-! ### `ConfigureRenderingSettingsForPhotography` -/

/-- The per-capture post-process overrides (`if (bAnselCaptureActive)`
`if (bAutoPostprocess)` block). -/
def capturePostProcessOverrides (a : AnselState) (pp : PPSettings) : PPSettings :=
  let pp := { pp with
    bOverride_MotionBlurAmount := true, MotionBlurAmount := 0,
    bOverride_BloomDirtMaskIntensity := true, BloomDirtMaskIntensity := 0,
    bOverride_LensFlareIntensity := true, LensFlareIntensity := 0,
    bOverride_VignetteIntensity := true, VignetteIntensity := 0,
    bOverride_SceneFringeIntensity := true, SceneFringeIntensity := 0,
    bOverride_AutoExposureSpeedDown := false, AutoExposureSpeedDown := 0,
    bOverride_AutoExposureSpeedUp := false, AutoExposureSpeedUp := 0 }
  let pp :=
    if pp.ScreenPercentage_DEPRECATED < 100 then
      { pp with bOverride_ScreenPercentage_DEPRECATED := true,
                ScreenPercentage_DEPRECATED := 100 }
    else pp
  let pp :=
    if a.captureType = .s360Stereo ∨ a.captureType = .stereo then
      { pp with
        bOverride_DepthOfFieldScale := true, DepthOfFieldScale := 0,
        bOverride_DepthOfFieldNearBlurSize := true, DepthOfFieldNearBlurSize := 0,
        bOverride_DepthOfFieldFarBlurSize := true, DepthOfFieldFarBlurSize := 0,
        bOverride_DepthOfFieldDepthBlurRadius := true, DepthOfFieldDepthBlurRadius := 0,
        bOverride_DepthOfFieldVignetteSize := true, DepthOfFieldVignetteSize := 200 }
    else pp
  if ¬a.captureType = .superResolution then
    { pp with bOverride_ScreenSpaceReflectionIntensity := true,
              ScreenSpaceReflectionIntensity := 0 }
  else pp

/-- `if (bHighLodIsSetup != bHighLodDesired)` block. -/
def lodBlock (s : GState) : GState :=
  if s.ans.bHighLodIsSetup ≠ s.ans.bHighLodDesired then
    let s1 := applyQList s (!s.ans.bHighLodDesired) lodCVarList
    { s1 with ans := { s1.ans with bHighLodIsSetup := s1.ans.bHighLodDesired } }
  else s

/-- `if (bHighLumenIsSetup != bHighLumenDesired)` block. -/
def lumenBlock (s : GState) : GState :=
  if s.ans.bHighLumenIsSetup ≠ s.ans.bHighLumenDesired then
    let s1 := applyQList s (!s.ans.bHighLumenDesired) lumenCVarList
    { s1 with ans := { s1.ans with bHighLumenIsSetup := s1.ans.bHighLumenDesired } }
  else s

/-- `if (bHighSkyLightIsSetup != bHighSkyLightDesired)` block. -/
def skylightBlock (s : GState) : GState :=
  if s.ans.bHighSkyLightIsSetup ≠ s.ans.bHighSkyLightDesired then
    let s1 := applyQList s (!s.ans.bHighSkyLightDesired) skylightCVarList
    { s1 with ans := { s1.ans with bHighSkyLightIsSetup := s1.ans.bHighSkyLightDesired } }
  else s

/-- `if (bHighSgQualityIsSetup != bHighSgQualityDesired)` block. -/
def sgQualityBlock (s : GState) : GState :=
  if s.ans.bHighSgQualityIsSetup ≠ s.ans.bHighSgQualityDesired then
    let s1 := applyQList s (!s.ans.bHighSgQualityDesired) sgQualityCVarList
    { s1 with ans := { s1.ans with bHighSgQualityIsSetup := s1.ans.bHighSgQualityDesired } }
  else s

/-- `if (bHighAntiAliasingIsSetup != bHighAntiAliasingDesired)` block. -/
def antiAliasingBlock (s : GState) : GState :=
  if s.ans.bHighAntiAliasingIsSetup ≠ s.ans.bHighAntiAliasingDesired then
    let s1 := applyQList s (!s.ans.bHighAntiAliasingDesired) antiAliasingCVarList
    { s1 with ans := { s1.ans with bHighAntiAliasingIsSetup := s1.ans.bHighAntiAliasingDesired } }
  else s

/-- `if (bRayTracingEnabled)` sub-block of the high-quality block. -/
def highQualityRTPart (wantReset : Bool) (s : GState) : GState :=
  if s.ans.bRayTracingEnabled then applyQList s wantReset qualityRTCVarList else s

/-- `if (bRayTracingEnabled)` sub-block of the `CVarExtreme` block. -/
def extremeRTPart (wantReset : Bool) (s : GState) : GState :=
  if s.ans.bRayTracingEnabled then applyQList s wantReset extremeRTCVarList else s

/-- `if (CVarExtreme->GetInt())` block. -/
def extremePart (wantReset : Bool) (s : GState) : GState :=
  if getCVarD s.eng.cvars "r.Photography.Extreme" 0 ≠ 0 then
    applyQList (extremeRTPart wantReset (applyQList s wantReset extremeCVarList))
      wantReset extremeTailCVarList
  else s

/-- The `CVarAllowHighQuality` gated high-quality block (including its
ray-tracing and `CVarExtreme` sub-blocks). -/
def highQualityBlock (s : GState) : GState :=
  if getCVarD s.eng.cvars "r.Photography.AllowHighQuality" 1 ≠ 0 ∧
     s.ans.bHighQualityModeIsSetup ≠ s.ans.bHighQualityModeDesired ∧
     (s.ans.bPausedInternally ∨ ¬s.ans.bAutoPause) then
    let wantReset := !s.ans.bHighQualityModeDesired
    let s1 := extremePart wantReset
      (highQualityRTPart wantReset (applyQList s wantReset qualityMainCVarList))
    { s1 with ans := { s1.ans with
        bHighQualityModeIsSetup := s1.ans.bHighQualityModeDesired } }
  else s

/-- `ConfigureRenderingSettingsForPhotography`: applies the pending
quality-boost CVar blocks, then the during-capture streaming CVars and
post-process overrides. -/
def configureRenderingSettingsForPhotography (s : GState) (pp : PPSettings) :
    GState × PPSettings :=
  let s := lodBlock s
  let s := lumenBlock s
  let s := skylightBlock s
  let s := sgQualityBlock s
  let s := antiAliasingBlock s
  let s := highQualityBlock s
  if s.ans.bAnselCaptureActive then
    let s := setCapturedCVar s "r.disablelodfade" 1
    let s := setCapturedCVar s "r.streaming.framesforfullupdate" 1
    let s := setCapturedCVar s "r.Streaming.MaxNumTexturesToStreamPerFrame" 0
    let s := setCapturedCVar s "r.streaming.numstaticcomponentsprocessedperframe" 0
    if s.ans.bAutoPostprocess then (s, capturePostProcessOverrides s.ans pp)
    else (s, pp)
  else (s, pp)

/-! ### `UpdateCamera` -/

/-- Per-frame environment inputs read by `UpdateCamera` (viewport,
stereo device, projection mode, ray-tracing support, and the position
verdict of the `PhotographyCameraModify` Blueprint hook). -/
structure FrameCtx where
  splitscreen : Bool := false
  stereoscopic : Bool := false
  orthoProjection : Bool := false
  rayTracingEnabled : Bool := false
  blueprintCameraInOriginal : Bool := false
  deriving Repr, DecidableEq

/-- Head of `UpdateCamera`: `bForceDisallow` is cleared, then recomputed
from the splitscreen and stereoscopic checks whenever no session is active,
and `bIsOrthoProjection` is refreshed from the incoming view.
(The world-to-meters / FOV-type detection and `ReconfigureAnsel` are not
modelled: they only rewrite the SDK configuration object.) -/
def preSessionScan (ctx : FrameCtx) (s : GState) : GState :=
  let s := { s with ans := { s.ans with bForceDisallow := false } }
  if s.ans.bAnselSessionActive = false then
    { s with ans := { s.ans with
        bIsOrthoProjection := ctx.orthoProjection,
        bForceDisallow := ctx.splitscreen || ctx.stereoscopic } }
  else s

/-- `++NumFramesSinceSessionStart`. -/
def bumpFrameCounter (s : GState) : GState :=
  { s with ans := { s.ans with
      numFramesSinceSessionStart := s.ans.numFramesSinceSessionStart + 1 } }

/-- The two capture-edge blocks: either edge requests a game camera cut
(the `OnPhotographyMultiPartCaptureStart`/`End` Blueprint events carry no
modelled state). -/
def frameCameraCut (s : GState) : Bool :=
  s.ans.bAnselCaptureNewlyActive || s.ans.bAnselCaptureNewlyFinished

def clearCaptureEdgeFlags (s : GState) : GState :=
  { s with ans := { s.ans with
      bAnselCaptureNewlyActive := false,
      bAnselCaptureNewlyFinished := false } }

/-- The `bAnselSessionWantDeactivate` branch of `UpdateCamera`: restore
HUD/subtitles/fading (when auto-postprocess), screen messages, time
dilation and pause (when auto-pause), camera movability, and every
captured console variable, then clear `InitialCVarMap`. -/
def sessionRestore (s : GState) : GState :=
  -- the `if (bAutoPostprocess) { ShowHUD-toggle / subtitles / fading }`,
  -- screen-message, pause/dilation, camera-movability and CVar-restore
  -- statements of the branch, written per engine field
  let unpause := s.ans.bAutoPause && !s.ans.bWasPausedBeforeSession
  { s with
    eng := { s.eng with
      showingHUD :=
        if s.ans.bAutoPostprocess && s.ans.bWasShowingHUDBeforeSession
        then !s.eng.showingHUD else s.eng.showingHUD,
      subtitlesEnabled :=
        if s.ans.bAutoPostprocess && s.ans.bWereSubtitlesEnabledBeforeSession
        then true else s.eng.subtitlesEnabled,
      fadingEnabled :=
        if s.ans.bAutoPostprocess && s.ans.bWasFadingEnabledBeforeSession
        then true else s.eng.fadingEnabled,
      screenMessagesEnabled := s.ans.bWasScreenMessagesEnabledBeforeSession,
      timeDilation :=
        if unpause then s.ans.fTimeDilationBeforeSession else s.eng.timeDilation,
      paused := if unpause then false else s.eng.paused,
      cameraMovableWhenPaused := s.ans.bWasMovableCameraBeforeSession,
      cvars := restoreCVars s.eng.cvars s.ans.initialCVarMap },
    ans := { s.ans with
      bAnselSessionActive := false,
      bAnselSessionWantDeactivate := false,
      bPausedInternally :=
        if unpause then false else s.ans.bPausedInternally,
      initialCVarMap := [],
      bHighQualityModeIsSetup := false } }

/-- The `bAnselSessionNewlyActive` branch of `UpdateCamera`: snapshot the
auto flags and the pre-session engine state, zero time dilation (when
auto-pausing an unpaused game), apply the session CVars, and disable
screen messages / HUD / subtitles / fading. -/
def sessionStartBranch (ctx : FrameCtx) (s : GState) : GState :=
  -- auto-flag reads, pre-session snapshots, movability/dilation overrides,
  -- `SetUpSessionCVars`, then the screen-message/HUD/subtitle/fading saves
  -- and overrides, written per field in source statement order
  let bAutoPause := decide (getCVarD s.eng.cvars "r.Photography.AutoPause" 1 ≠ 0)
  let bAutoPostprocess :=
    decide (getCVarD s.eng.cvars "r.Photography.AutoPostprocess" 1 ≠ 0)
  let doDilation := bAutoPause && !s.eng.paused
  let s1 := setUpSessionCVars
    { s with
      eng := { s.eng with
        cameraMovableWhenPaused := true,
        timeDilation := if doDilation then 0 else s.eng.timeDilation },
      ans := { s.ans with
        numFramesSinceSessionStart := 0,
        bAutoPause := bAutoPause,
        bAutoPostprocess := bAutoPostprocess,
        bRayTracingEnabled := ctx.rayTracingEnabled,
        bWasPausedBeforeSession := s.eng.paused,
        bWasMovableCameraBeforeSession := s.eng.cameraMovableWhenPaused,
        fTimeDilationBeforeSession :=
          if doDilation then s.eng.timeDilation
          else s.ans.fTimeDilationBeforeSession } }
  let bWasShowing := s1.eng.hudExists && s1.eng.showingHUD
  { s1 with
    eng := { s1.eng with
      screenMessagesEnabled := false,
      showingHUD :=
        if bAutoPostprocess && bWasShowing then !s1.eng.showingHUD
        else s1.eng.showingHUD,
      subtitlesEnabled :=
        if bAutoPostprocess then false else s1.eng.subtitlesEnabled,
      fadingEnabled :=
        if bAutoPostprocess then false else s1.eng.fadingEnabled },
    ans := { s1.ans with
      bWasScreenMessagesEnabledBeforeSession := s1.eng.screenMessagesEnabled,
      bWasFadingEnabledBeforeSession := s1.eng.fadingEnabled,
      bWasShowingHUDBeforeSession := bWasShowing,
      bWereSubtitlesEnabledBeforeSession := s1.eng.subtitlesEnabled,
      bUIControlsNeedRebuild := true,
      bCameraIsInOriginalState := true,
      bAnselSessionNewlyActive := false } }

/-- `if (NumFramesSinceSessionStart == 2)`: the deferred `SetPause(true)`. -/
def maybePauseAtFrame2 (s : GState) : GState :=
  if s.ans.numFramesSinceSessionStart = 2 then
    if s.ans.bAutoPause && !s.ans.bWasPausedBeforeSession then
      { s with eng := { s.eng with paused := true },
               ans := { s.ans with bPausedInternally := true } }
    else s
  else s

/-- `FNVAnselCameraPhotographyPrivate::UpdateCamera`.  Camera-struct
plumbing (`ansel::updateCamera`, `AnselCameraToFMinimalView`, aspect-ratio
unconstraining) is not modelled; `BlueprintModifyCamera`'s verdict enters
through `ctx.blueprintCameraInOriginal`.  Returns the updated state and
`bGameCameraCutThisFrame`. -/
def updateCamera (ctx : FrameCtx) (s0 : GState) : GState × Bool :=
  let s1 := preSessionScan ctx s0
  if s1.ans.bAnselSessionActive then
    let s2 := bumpFrameCounter s1
    let cut := frameCameraCut s2
    let s3 := clearCaptureEdgeFlags s2
    if s3.ans.bAnselSessionWantDeactivate then
      (sessionRestore s3, cut)
    else
      let s4 := { s3 with ans := { s3.ans with bCameraIsInOriginalState := false } }
      let s5 :=
        if s4.ans.bAnselSessionNewlyActive then sessionStartBranch ctx s4
        else if s4.ans.bAnselCaptureActive = false then
          { s4 with ans := { s4.ans with
              bCameraIsInOriginalState := ctx.blueprintCameraInOriginal } }
        else s4
      (maybePauseAtFrame2 s5, cut)
  else (s1, false)

/-! ### SDK callbacks -/

/-- `ansel::SessionConfiguration` fields set by the start callback. -/
structure SessionSettings where
  isTranslationAllowed : Bool := false
  isFovChangeAllowed : Bool := false
  isRotationAllowed : Bool := false
  isPauseAllowed : Bool := false
  isHighresAllowed : Bool := false
  is360MonoAllowed : Bool := false
  is360StereoAllowed : Bool := false
  deriving Repr, DecidableEq

inductive StartSessionStatus
  | kAllowed
  | kDisallowed
  deriving Repr, DecidableEq

/-- `AnselStartSessionCallback`. -/
def anselStartSessionCallback (gIsEditor : Bool) (settings : SessionSettings)
    (s : GState) : SessionSettings × GState × StartSessionStatus :=
  if s.ans.bForceDisallow = false ∧
     getCVarD s.eng.cvars "r.Photography.Allow" 1 ≠ 0 ∧
     gIsEditor = false then
    let bEnableMultipart :=
      decide (getCVarD s.eng.cvars "r.Photography.EnableMultipart" 1 ≠ 0)
    let settings := { settings with
      isTranslationAllowed := true,
      isFovChangeAllowed := !s.ans.bIsOrthoProjection,
      isRotationAllowed := true,
      isPauseAllowed := true,
      isHighresAllowed := bEnableMultipart,
      is360MonoAllowed := bEnableMultipart,
      is360StereoAllowed := bEnableMultipart }
    let s := { s with ans := { s.ans with
      bAnselSessionActive := true,
      bAnselSessionNewlyActive := true,
      bHighQualityModeDesired := false } }
    (settings, s, .kAllowed)
  else
    (settings, s, .kDisallowed)

/-- `AnselStopSessionCallback`. -/
def anselStopSessionCallback (s : GState) : GState :=
  if s.ans.bAnselSessionActive && s.ans.bAnselSessionNewlyActive then
    { s with ans := { s.ans with bAnselSessionActive := false } }
  else
    { s with ans := { s.ans with bAnselSessionWantDeactivate := true } }

/-- `AnselStartCaptureCallback`. -/
def anselStartCaptureCallback (ct : CaptureType) (s : GState) : GState :=
  { s with ans := { s.ans with
      bAnselCaptureActive := true,
      bAnselCaptureNewlyActive := true,
      captureType := ct } }

/-- `AnselStopCaptureCallback`. -/
def anselStopCaptureCallback (s : GState) : GState :=
  { s with ans := { s.ans with
      bAnselCaptureActive := false,
      bAnselCaptureNewlyFinished := true } }

/-- `AnselChangeQualityCallback`. -/
def anselChangeQualityCallback (isHighQuality : Bool) (s : GState) : GState :=
  { s with ans := { s.ans with bHighQualityModeDesired := isHighQuality } }

/-! ### `UpdatePostProcessing` -/

/-- Overlay 'Game Settings' boolean values delivered by the Ansel UI. -/
structure UICtx where
  lodHigh : Bool := false
  lumenHigh : Bool := false
  skylightHigh : Bool := false
  aaHigh : Bool := false
  sgHigh : Bool := false
  deriving Repr, DecidableEq

/-- State effect of `DoCustomUIControls`: the five `ProcessUIBool` reads
land in the `bHigh*Desired` flags and a rebuild clears
`bUIControlsNeedRebuild`.  (The slider plumbing only rewrites the
post-process struct and UI bookkeeping, never engine state.) -/
def doCustomUIControlsEffect (ui : UICtx) (s : GState) : GState :=
  { s with ans := { s.ans with
      bUIControlsNeedRebuild := false,
      bHighLodDesired := ui.lodHigh,
      bHighLumenDesired := ui.lumenHigh,
      bHighSkyLightDesired := ui.skylightHigh,
      bHighAntiAliasingDesired := ui.aaHigh,
      bHighSgQualityDesired := ui.sgHigh } }

/-- `UpdatePostProcessing`: a no-op unless a session is active. -/
def updatePostProcessing (ui : UICtx) (s : GState) (pp : PPSettings) :
    GState × PPSettings :=
  if s.ans.bAnselSessionActive then
    configureRenderingSettingsForPhotography (doCustomUIControlsEffect ui s) pp
  else (s, pp)

/-! ### Mid-session activity -/

/-- Everything the plugin can run between the session-start frame and the
session-end frame: further `UpdateCamera` frames, `UpdatePostProcessing`
frames, and the capture / quality SDK callbacks. -/
inductive SessionOp
  | frame (ctx : FrameCtx)
  | postProcess (ui : UICtx) (pp : PPSettings)
  | captureStart (ct : CaptureType)
  | captureStop
  | changeQuality (isHighQuality : Bool)

def applyOp (s : GState) : SessionOp → GState
  | .frame ctx => (updateCamera ctx s).1
  | .postProcess ui pp => (updatePostProcessing ui s pp).1
  | .captureStart ct => anselStartCaptureCallback ct s
  | .captureStop => anselStopCaptureCallback s
  | .changeQuality q => anselChangeQualityCallback q s

def applyOps (s : GState) (ops : List SessionOp) : GState :=
  ops.foldl applyOp s

/-- A full session round trip: the SDK start callback, the session-start
frame, arbitrary mid-session activity, the SDK stop callback, and the
frame that processes the deactivation. -/
def runPhotoTrip (gIsEditor : Bool) (ctx0 : FrameCtx) (ops : List SessionOp)
    (ctxEnd : FrameCtx) (s : GState) : GState :=
  let s1 := (anselStartSessionCallback gIsEditor {} s).2.1
  let s2 := (updateCamera ctx0 s1).1
  let s3 := applyOps s2 ops
  let s4 := anselStopSessionCallback s3
  (updateCamera ctxEnd s4).1

/-! ### Blueprint function library (`UAnselFunctionLibrary`) -/

/-- Externally observable effects a library call can have, used to check
which functions are pure CVar reads/writes. -/
inductive EngineEffect
  | cvarRead (name : String)
  | cvarWrite (name : String) (value : ℚ)
  | managerStartSession
  | managerStopSession
  | managerSetUIControlVisibility
  | collisionOverlapTest
  | collisionSweep
  deriving Repr, DecidableEq

/-- 3-vector over ℚ for the sweep-based geometry constraint (which does no
square roots). -/
structure V3 where
  x : ℚ
  y : ℚ
  z : ℚ
  deriving Repr, DecidableEq

def v3add (a b : V3) : V3 := ⟨a.x + b.x, a.y + b.y, a.z + b.z⟩

def v3sub (a b : V3) : V3 := ⟨a.x - b.x, a.y - b.y, a.z - b.z⟩

def v3dot (a b : V3) : ℚ := a.x * b.x + a.y * b.y + a.z * b.z

/-- `FVector::IsNearlyZero` with the default `KINDA_SMALL_NUMBER` (1e-4)
tolerance. -/
def isNearlyZero (v : V3) : Bool :=
  |v.x| ≤ 1/10000 && |v.y| ≤ 1/10000 && |v.z| ≤ 1/10000

/-- Collision oracle for the world the geometry constraint queries:
sphere-overlap tests and a sphere sweep returning the blocking-hit
location, all on the camera trace channel. -/
structure WorldCtx where
  overlapAnyTest : V3 → ℚ → Bool
  sweepSingle : V3 → V3 → ℚ → Option V3

/-- Result of a geometry-constraint call: the constrained location, the
function's static `LastUnconfinedScreenshotCamera` after the call, and the
engine effects performed. -/
structure GeoResult where
  out : V3
  lastUnconfined : V3
  trace : List EngineEffect
  deriving Repr, DecidableEq

/-- 3-vector over ℝ for the distance clamp (whose clamping scales by an
inverse square root). -/
structure RV3 where
  x : ℝ
  y : ℝ
  z : ℝ

def rv3add (a b : RV3) : RV3 := ⟨a.x + b.x, a.y + b.y, a.z + b.z⟩

def rv3sub (a b : RV3) : RV3 := ⟨a.x - b.x, a.y - b.y, a.z - b.z⟩

def rv3smul (c : ℝ) (v : RV3) : RV3 := ⟨c * v.x, c * v.y, c * v.z⟩

/-- `FVector::SizeSquared`. -/
def sizeSquared (v : RV3) : ℝ := v.x ^ 2 + v.y ^ 2 + v.z ^ 2

/-- `FVector::GetClampedToMaxSize`: zero vector for tiny bounds, a rescale
by `MaxSize * InvSqrt(SizeSquared)` when too long, identity otherwise. -/
noncomputable def getClampedToMaxSize (v : RV3) (MaxSize : ℝ) : RV3 :=
  if MaxSize < 1/10000 then ⟨0, 0, 0⟩
  else if sizeSquared v > MaxSize ^ 2 then
    rv3smul (MaxSize * (Real.sqrt (sizeSquared v))⁻¹) v
  else v

namespace UAnselFunctionLibrary

/-- `StartSession` via `StartOrStopSession(true, ..)`: forwards to the
photography manager when one is available. -/
def StartSession (mgrAvailable : Bool) (st : CVarStore) :
    CVarStore × List EngineEffect :=
  if mgrAvailable then (st, [.managerStartSession]) else (st, [])

/-- `StopSession` via `StartOrStopSession(false, ..)`. -/
def StopSession (mgrAvailable : Bool) (st : CVarStore) :
    CVarStore × List EngineEffect :=
  if mgrAvailable then (st, [.managerStopSession]) else (st, [])

/-- `IsPhotographyAvailable`: `r.Photography.Available` found and non-zero. -/
def IsPhotographyAvailable (st : CVarStore) : Bool × List EngineEffect :=
  match alookup st "r.Photography.Available" with
  | none => (false, [.cvarRead "r.Photography.Available"])
  | some v => (decide (v ≠ 0), [.cvarRead "r.Photography.Available"])

/-- `IsPhotographyAllowed`: `r.Photography.Allow` found and non-zero. -/
def IsPhotographyAllowed (st : CVarStore) : Bool × List EngineEffect :=
  match alookup st "r.Photography.Allow" with
  | none => (false, [.cvarRead "r.Photography.Allow"])
  | some v => (decide (v ≠ 0), [.cvarRead "r.Photography.Allow"])

/-- `SetIsPhotographyAllowed`. -/
def SetIsPhotographyAllowed (bAllowed : Bool) (st : CVarStore) :
    CVarStore × List EngineEffect :=
  match alookup st "r.Photography.Allow" with
  | none => (st, [])
  | some _ =>
      (setCVar st "r.Photography.Allow" (if bAllowed then 1 else 0),
       [.cvarWrite "r.Photography.Allow" (if bAllowed then 1 else 0)])

/-- `SetSettleFrames`. -/
def SetSettleFrames (numSettleFrames : ℤ) (st : CVarStore) :
    CVarStore × List EngineEffect :=
  match alookup st "r.Photography.SettleFrames" with
  | none => (st, [])
  | some _ =>
      (setCVar st "r.Photography.SettleFrames" (numSettleFrames : ℚ),
       [.cvarWrite "r.Photography.SettleFrames" (numSettleFrames : ℚ)])

/-- `SetCameraMovementSpeed`. -/
def SetCameraMovementSpeed (translationSpeed : ℚ) (st : CVarStore) :
    CVarStore × List EngineEffect :=
  match alookup st "r.Photography.TranslationSpeed" with
  | none => (st, [])
  | some _ =>
      (setCVar st "r.Photography.TranslationSpeed" translationSpeed,
       [.cvarWrite "r.Photography.TranslationSpeed" translationSpeed])

/-- `SetCameraConstraintCameraSize`. -/
def SetCameraConstraintCameraSize (cameraSize : ℚ) (st : CVarStore) :
    CVarStore × List EngineEffect :=
  match alookup st "r.Photography.Constrain.CameraSize" with
  | none => (st, [])
  | some _ =>
      (setCVar st "r.Photography.Constrain.CameraSize" cameraSize,
       [.cvarWrite "r.Photography.Constrain.CameraSize" cameraSize])

/-- `SetCameraConstraintDistance`. -/
def SetCameraConstraintDistance (maxCameraDistance : ℚ) (st : CVarStore) :
    CVarStore × List EngineEffect :=
  match alookup st "r.Photography.Constrain.MaxCameraDistance" with
  | none => (st, [])
  | some _ =>
      (setCVar st "r.Photography.Constrain.MaxCameraDistance" maxCameraDistance,
       [.cvarWrite "r.Photography.Constrain.MaxCameraDistance" maxCameraDistance])

/-- `SetAutoPostprocess`. -/
def SetAutoPostprocess (bShouldAutoPostprocess : Bool) (st : CVarStore) :
    CVarStore × List EngineEffect :=
  match alookup st "r.Photography.AutoPostprocess" with
  | none => (st, [])
  | some _ =>
      (setCVar st "r.Photography.AutoPostprocess"
         (if bShouldAutoPostprocess then 1 else 0),
       [.cvarWrite "r.Photography.AutoPostprocess"
         (if bShouldAutoPostprocess then 1 else 0)])

/-- `SetAutoPause`. -/
def SetAutoPause (bShouldAutoPause : Bool) (st : CVarStore) :
    CVarStore × List EngineEffect :=
  match alookup st "r.Photography.AutoPause" with
  | none => (st, [])
  | some _ =>
      (setCVar st "r.Photography.AutoPause" (if bShouldAutoPause then 1 else 0),
       [.cvarWrite "r.Photography.AutoPause" (if bShouldAutoPause then 1 else 0)])

/-- `SetUIControlVisibility`: forwards to the photography manager when one
is available. -/
def SetUIControlVisibility (mgrAvailable : Bool) (st : CVarStore) :
    CVarStore × List EngineEffect :=
  if mgrAvailable then (st, [.managerSetUIControlVisibility]) else (st, [])

/-- `ConstrainCameraByDistance`: reject negative bounds, otherwise clamp
the movement vector from the original location. -/
noncomputable def ConstrainCameraByDistance (newLoc prevLoc origLoc : RV3)
    (MaxDistance : ℝ) : RV3 :=
  if MaxDistance < 0 then newLoc
  else rv3add origLoc (getClampedToMaxSize (rv3sub newLoc origLoc) MaxDistance)

/-- `ConstrainCameraByGeometry`.  The static
`LastUnconfinedScreenshotCamera` is threaded as `lastUnconfined0` /
`GeoResult.lastUnconfined`.  The source dereferences the
`r.Photography.Constrain.CameraSize` find result without a null check, so
a missing CVar is modelled as `none` (a crash, not a graceful skip). -/
def ConstrainCameraByGeometry (w : WorldCtx) (st : CVarStore)
    (newLoc prevLoc origLoc lastUnconfined0 : V3) : Option GeoResult :=
  -- OutCameraLocation = NewCameraLocation: accept new camera position by default
  match alookup st "r.Photography.Constrain.CameraSize" with
  | none => none
  | some cameraRadius =>
    if cameraRadius < 0 then
      some ⟨newLoc, lastUnconfined0, [.cvarRead "r.Photography.Constrain.CameraSize"]⟩
    else
      let openSpaceRadius := 2 * cameraRadius
      let last1 := if prevLoc = origLoc then origLoc else lastUnconfined0
      let sweepStart := last1
      let castDirection := v3sub newLoc sweepStart
      if isNearlyZero castDirection then
        some ⟨newLoc, last1, [.cvarRead "r.Photography.Constrain.CameraSize"]⟩
      else
        let occupied := w.overlapAnyTest last1 cameraRadius
        let out1 :=
          if occupied then newLoc
          else
            match w.sweepSingle sweepStart newLoc cameraRadius with
            | some hitLocation => hitLocation
            | none => newLoc
        let out2 :=
          if v3dot (v3sub out1 prevLoc) (v3sub newLoc prevLoc) ≤ 0 then prevLoc
          else out1
        let openSpaceCheckPos := v3add last1 (v3sub out2 prevLoc)
        let last2 :=
          if w.overlapAnyTest openSpaceCheckPos openSpaceRadius = false then
            openSpaceCheckPos
          else if w.overlapAnyTest out2 openSpaceRadius = false then out2
          else last1
        some ⟨out2, last2,
          [.cvarRead "r.Photography.Constrain.CameraSize", .collisionOverlapTest] ++
          (if occupied then [] else [.collisionSweep]) ++
          [.collisionOverlapTest] ++
          (if w.overlapAnyTest openSpaceCheckPos openSpaceRadius = false then []
           else [.collisionOverlapTest])⟩

end UAnselFunctionLibrary

/-- A trace consisting purely of CVar reads and writes. -/
def onlyCVarEffects (l : List EngineEffect) : Bool :=
  l.all fun e =>
    match e with
    | .cvarRead _ => true
    | .cvarWrite _ _ => true
    | _ => false

/-! ### Invariants for the session round trip -/

/-- Relation between `InitialCVarMap`, the live CVar store and the
pre-session CVar store `E`: captured values are the pre-session values,
uncaptured variables still hold their pre-session values, and no variable
appears or disappears. -/
structure CVarInv (E : CVarStore) (s : GState) : Prop where
  nodupKeys : (s.ans.initialCVarMap.map Prod.fst).Nodup
  capturedVal : ∀ n v, alookup s.ans.initialCVarMap n = some v → alookup E n = some v
  untouched : ∀ n, alookup s.ans.initialCVarMap n = none →
    alookup s.eng.cvars n = alookup E n
  sameKeys : ∀ n, (alookup s.eng.cvars n).isSome = (alookup E n).isSome

/-- Mid-session invariant: the session is running (started, not newly
active, no deactivation pending), the `bWas*` snapshots hold the
pre-session engine state `E`, and the live engine state differs from `E`
exactly by the session's overrides. -/
structure SessionInv (E : EngineState) (s : GState) : Prop where
  active : s.ans.bAnselSessionActive = true
  notNew : s.ans.bAnselSessionNewlyActive = false
  noDeact : s.ans.bAnselSessionWantDeactivate = false
  savedPaused : s.ans.bWasPausedBeforeSession = E.paused
  savedMovable : s.ans.bWasMovableCameraBeforeSession = E.cameraMovableWhenPaused
  savedMsgs : s.ans.bWasScreenMessagesEnabledBeforeSession = E.screenMessagesEnabled
  savedHUD : s.ans.bWasShowingHUDBeforeSession = (E.hudExists && E.showingHUD)
  savedSubs : s.ans.bWereSubtitlesEnabledBeforeSession = E.subtitlesEnabled
  savedFade : s.ans.bWasFadingEnabledBeforeSession = E.fadingEnabled
  savedDilation : (s.ans.bAutoPause && !E.paused) = true →
    s.ans.fTimeDilationBeforeSession = E.timeDilation
  engMovable : s.eng.cameraMovableWhenPaused = true
  engMsgs : s.eng.screenMessagesEnabled = false
  engHudExists : s.eng.hudExists = E.hudExists
  engDilation : s.eng.timeDilation =
    (if (s.ans.bAutoPause && !E.paused) = true then 0 else E.timeDilation)
  engPaused : (s.ans.bAutoPause && !E.paused) = false → s.eng.paused = E.paused
  engHUD : s.eng.showingHUD =
    (if (s.ans.bAutoPostprocess && (E.hudExists && E.showingHUD)) = true then false
     else E.showingHUD)
  engSubs : s.eng.subtitlesEnabled =
    (if s.ans.bAutoPostprocess = true then false else E.subtitlesEnabled)
  engFade : s.eng.fadingEnabled =
    (if s.ans.bAutoPostprocess = true then false else E.fadingEnabled)
  cvarInv : CVarInv E.cvars s

/-- The provider fields the session invariant tracks (everything a
mid-session operation must leave alone). -/
def ansCore2 (s : GState) :=
  (s.ans.bAnselSessionActive, s.ans.bAnselSessionNewlyActive,
   s.ans.bAnselSessionWantDeactivate, s.ans.bWasPausedBeforeSession,
   s.ans.bWasMovableCameraBeforeSession,
   s.ans.bWasScreenMessagesEnabledBeforeSession,
   s.ans.bWasShowingHUDBeforeSession, s.ans.bWereSubtitlesEnabledBeforeSession,
   s.ans.bWasFadingEnabledBeforeSession, s.ans.fTimeDilationBeforeSession,
   s.ans.bAutoPause, s.ans.bAutoPostprocess)

/-- The engine fields other than the CVar store. -/
def engCore2 (s : GState) :=
  (s.eng.paused, s.eng.timeDilation, s.eng.cameraMovableWhenPaused,
   s.eng.screenMessagesEnabled, s.eng.hudExists, s.eng.showingHUD,
   s.eng.subtitlesEnabled, s.eng.fadingEnabled)

/-- The whole provider state except `InitialCVarMap` (the only provider
field a CVar capture touches). -/
def ansFull (s : GState) : AnselState :=
  { s.ans with initialCVarMap := [] }

/-- The whole engine state except the CVar store. -/
def engFull (s : GState) : EngineState :=
  { s.eng with cvars := [] }

/-- Executions of the plugin driven by an SDK that honours its session
contract: the stop-session callback only arrives for a session it was
granted (`kAllowed`), and a new session is only requested once the
previous session's deactivation has been processed. -/
inductive ReachAnsel : GState × Bool → Prop
  | init (E : EngineState) (lg : List String) :
      ReachAnsel (⟨E, {}, lg⟩, false)
  | startCb (s : GState) (settings : SessionSettings)
      (h : ReachAnsel (s, false))
      (hteardown : s.ans.bAnselSessionWantDeactivate = false) :
      ReachAnsel ((anselStartSessionCallback false settings s).2.1,
        decide ((anselStartSessionCallback false settings s).2.2 = .kAllowed))
  | stopCb (s : GState) (h : ReachAnsel (s, true)) :
      ReachAnsel (anselStopSessionCallback s, false)
  | step (s : GState) (b : Bool) (op : SessionOp) (h : ReachAnsel (s, b)) :
      ReachAnsel (applyOp s op, b)

end Ansel

namespace Ansel

/-- C3: failing to load the Ansel DLL (handle 0) leaves the feature off:
`bAnselDLLLoaded` is false, `IsSupported` is false whatever the SDK
availability probe says, `CreateCameraPhotography` yields no provider, and
neither the console-variable sink nor the Ansel configuration is
registered. -/
theorem dll_load_failure_disables_feature :
    ∀ anselAvailable : Bool,
      startupModule 0 = false ∧
      isSupported (startupModule 0) anselAvailable = false ∧
      createCameraPhotography (startupModule 0) anselAvailable = none ∧
      (constructPrivate (startupModule 0)).sinkRegistered = false ∧
      (constructPrivate (startupModule 0)).anselConfigured = false := by
  intro a
  cases a <;> simp [startupModule, isSupported, createCameraPhotography, constructPrivate]

/-! ### Association-list store lemmas -/

theorem alookup_setCVar (st : CVarStore) (n : String) (v : ℚ) (m : String) :
    alookup (setCVar st n v) m =
      if n = m then (if (alookup st n).isSome then some v else none)
      else alookup st m := by
  induction st with
  | nil => by_cases h : n = m <;> simp [setCVar, alookup, h]
  | cons p rest ih =>
      obtain ⟨k, w⟩ := p
      by_cases hkn : k = n
      · subst hkn
        by_cases hkm : k = m <;> simp [setCVar, alookup, hkm]
      · by_cases hkm : k = m
        · subst hkm
          have hnm : ¬n = k := fun h => hkn h.symm
          simp [setCVar, alookup, hkn, hnm]
        · simp [setCVar, alookup, hkn, hkm, ih]

theorem alookup_setCVar_isSome (st : CVarStore) (n : String) (v : ℚ) (m : String) :
    (alookup (setCVar st n v) m).isSome = (alookup st m).isSome := by
  rw [alookup_setCVar]
  by_cases h : n = m
  · subst h
    cases hh : alookup st n <;> simp [hh]
  · simp [h]

theorem alookup_mapAdd (m : CVarMap) (n : String) (v : ℚ) (r : String) :
    alookup (mapAdd m n v) r = if n = r then some v else alookup m r := by
  induction m with
  | nil => by_cases h : n = r <;> simp [mapAdd, alookup, h]
  | cons p rest ih =>
      obtain ⟨k, w⟩ := p
      by_cases hkn : k = n
      · subst hkn
        by_cases hkr : k = r <;> simp [mapAdd, alookup, hkr]
      · by_cases hkr : k = r
        · subst hkr
          have hnk : ¬n = k := fun h => hkn h.symm
          simp [mapAdd, alookup, hkn, hnk]
        · simp [mapAdd, alookup, hkn, hkr, ih]

theorem alookup_eq_none_iff (m : CVarMap) (n : String) :
    alookup m n = none ↔ n ∉ m.map Prod.fst := by
  induction m with
  | nil => simp [alookup]
  | cons p rest ih =>
      obtain ⟨k, w⟩ := p
      by_cases hkn : k = n
      · subst hkn
        simp [alookup]
      · rw [show alookup ((k, w) :: rest) n = alookup rest n from by
          simp [alookup, hkn]]
        rw [ih]
        simp only [List.map_cons, List.mem_cons]
        constructor
        · intro h hmem
          rcases hmem with h1 | h2
          · exact hkn h1.symm
          · exact h h2
        · intro h h2
          exact h (Or.inr h2)

theorem mapAdd_keys_of_none (m : CVarMap) (n : String) (v : ℚ)
    (h : alookup m n = none) :
    (mapAdd m n v).map Prod.fst = m.map Prod.fst ++ [n] := by
  induction m with
  | nil => simp [mapAdd]
  | cons p rest ih =>
      obtain ⟨k, w⟩ := p
      by_cases hkn : k = n
      · subst hkn
        simp [alookup] at h
      · simp only [alookup, if_neg hkn] at h
        simp [mapAdd, hkn, ih h]

theorem mapAdd_nodup (m : CVarMap) (n : String) (v : ℚ)
    (hnd : (m.map Prod.fst).Nodup) (h : alookup m n = none) :
    ((mapAdd m n v).map Prod.fst).Nodup := by
  rw [mapAdd_keys_of_none m n v h]
  have hne : n ∉ m.map Prod.fst := (alookup_eq_none_iff m n).1 h
  rw [List.nodup_append]
  refine ⟨hnd, List.nodup_singleton n, ?_⟩
  intro a ha hb
  rw [List.mem_singleton] at hb
  subst hb
  exact hne ha

theorem restoreCVars_lookup (m : CVarMap) :
    ∀ st E : CVarStore,
      (m.map Prod.fst).Nodup →
      (∀ n v, alookup m n = some v → alookup E n = some v) →
      (∀ n, alookup m n = none → alookup st n = alookup E n) →
      (∀ n, (alookup st n).isSome = (alookup E n).isSome) →
      ∀ n, alookup (restoreCVars st m) n = alookup E n := by
  induction m with
  | nil =>
      intro st E _ _ hun _ n
      simpa [restoreCVars] using hun n rfl
  | cons p rest ih =>
      intro st E hnd hcap hun hkeys n
      obtain ⟨k, v⟩ := p
      simp only [List.map_cons, List.nodup_cons] at hnd
      obtain ⟨hknotin, hnd'⟩ := hnd
      have hrestk : alookup rest k = none := (alookup_eq_none_iff rest k).2 hknotin
      have hEk : alookup E k = some v := hcap k v (by simp [alookup])
      have hstk : (alookup st k).isSome = true := by
        rw [hkeys k, hEk]; rfl
      have hunf : restoreCVars st ((k, v) :: rest) = restoreCVars (setCVar st k v) rest := rfl
      rw [hunf]
      refine ih (setCVar st k v) E hnd' ?_ ?_ ?_ n
      · intro n' v' hn'
        have hkne : ¬k = n' := by
          intro he
          subst he
          rw [hrestk] at hn'
          exact Option.noConfusion hn'
        exact hcap n' v' (by simpa [alookup, hkne] using hn')
      · intro n' hn'
        by_cases hkn : k = n'
        · subst hkn
          rw [alookup_setCVar, if_pos rfl, if_pos hstk, hEk]
        · have hmn : alookup ((k, v) :: rest) n' = none := by
            simpa [alookup, hkn] using hn'
          rw [alookup_setCVar, if_neg hkn]
          exact hun n' hmn
      · intro n'
        rw [alookup_setCVar_isSome]
        exact hkeys n'

/-! ### Preservation of the captured-CVar invariant -/

theorem cvarInv_congr {E : CVarStore} {s s' : GState} (h : CVarInv E s)
    (hmap : s'.ans.initialCVarMap = s.ans.initialCVarMap)
    (hcv : s'.eng.cvars = s.eng.cvars) : CVarInv E s' := by
  constructor
  · rw [hmap]
    exact h.nodupKeys
  · intro n v hn
    rw [hmap] at hn
    exact h.capturedVal n v hn
  · intro n hn
    rw [hmap] at hn
    rw [hcv]
    exact h.untouched n hn
  · intro n
    rw [hcv]
    exact h.sameKeys n

theorem cvarInv_setCapturedCVarPredicated (E : CVarStore) (s : GState)
    (h : CVarInv E s) (name : String) (val : ℚ) (cmp : ℚ → ℚ → Bool)
    (wr prio : Bool) :
    CVarInv E (setCapturedCVarPredicated s name val cmp wr prio) := by
  obtain ⟨hnd, hcap, hun, hkeys⟩ := h
  unfold setCapturedCVarPredicated
  cases h1 : alookup s.ans.initialCVarMap name with
  | some v0 =>
      dsimp only
      split
      · -- set branch, engine store touched at `name` only
        refine ⟨hnd, hcap, ?_, ?_⟩
        · intro n hn
          have hne : ¬name = n := by
            intro he
            subst he
            rw [h1] at hn
            exact Option.noConfusion hn
          show alookup (setCVar s.eng.cvars name _) n = _
          rw [alookup_setCVar, if_neg hne]
          exact hun n hn
        · intro n
          show (alookup (setCVar s.eng.cvars name _) n).isSome = _
          rw [alookup_setCVar_isSome]
          exact hkeys n
      · exact ⟨hnd, hcap, hun, hkeys⟩
  | none =>
      cases h2 : alookup s.eng.cvars name with
      | some w =>
          have hEn : alookup E name = some w := by
            have hx := hun name h1
            rw [h2] at hx
            exact hx.symm
          have hnd' := mapAdd_nodup s.ans.initialCVarMap name w hnd h1
          have hcap' : ∀ n v,
              alookup (mapAdd s.ans.initialCVarMap name w) n = some v →
              alookup E n = some v := by
            intro n v hn
            rw [alookup_mapAdd] at hn
            by_cases hne : name = n
            · subst hne
              rw [if_pos rfl] at hn
              cases hn
              exact hEn
            · rw [if_neg hne] at hn
              exact hcap n v hn
          dsimp only
          split
          · -- capture then set
            refine ⟨hnd', hcap', ?_, ?_⟩
            · intro n hn
              rw [alookup_mapAdd] at hn
              by_cases hne : name = n
              · subst hne
                rw [if_pos rfl] at hn
                exact Option.noConfusion hn
              · rw [if_neg hne] at hn
                show alookup (setCVar s.eng.cvars name _) n = _
                rw [alookup_setCVar, if_neg hne]
                exact hun n hn
            · intro n
              show (alookup (setCVar s.eng.cvars name _) n).isSome = _
              rw [alookup_setCVar_isSome]
              exact hkeys n
          · -- capture only
            refine ⟨hnd', hcap', ?_, hkeys⟩
            intro n hn
            rw [alookup_mapAdd] at hn
            by_cases hne : name = n
            · subst hne
              rw [if_pos rfl] at hn
              exact Option.noConfusion hn
            · rw [if_neg hne] at hn
              exact hun n hn
      | none =>
          exact ⟨hnd, hcap, hun, hkeys⟩

theorem cvarInv_setCapturedCVar (E : CVarStore) (s : GState) (h : CVarInv E s)
    (name : String) (val : ℚ) (wr prio : Bool) :
    CVarInv E (setCapturedCVar s name val wr prio) :=
  cvarInv_setCapturedCVarPredicated E s h name val _ wr prio

theorem cvarInv_applyQList (E : CVarStore) (wr : Bool) (l : List QEntry) :
    ∀ s : GState, CVarInv E s → CVarInv E (applyQList s wr l) := by
  induction l with
  | nil =>
      intro s h
      simpa [applyQList] using h
  | cons e rest ih =>
      intro s h
      show CVarInv E (applyQList (applyQEntry wr s e) wr rest)
      exact ih _ (cvarInv_setCapturedCVarPredicated E s h e.name e.val _ _ _)

theorem cvarInv_setUpSessionCVars (E : CVarStore) (s : GState) (h : CVarInv E s) :
    CVarInv E (setUpSessionCVars s) := by
  show CVarInv E (setCapturedCVar (setCapturedCVar (setCapturedCVar
    (setCapturedCVar (setCapturedCVar s "r.oneframethreadlag" 1)
      "r.streaming.minmipforsplitrequest" 1)
      "r.streaming.hiddenprimitivescale" (1/1000))
      "r.Streaming.Boost" 1)
      "r.motionblurquality" 0)
  exact cvarInv_setCapturedCVar E _ (cvarInv_setCapturedCVar E _
    (cvarInv_setCapturedCVar E _ (cvarInv_setCapturedCVar E _
      (cvarInv_setCapturedCVar E _ h _ _ _ _) _ _ _ _) _ _ _ _) _ _ _ _) _ _ _ _

theorem cvarInv_lodBlock (E : CVarStore) (s : GState) (h : CVarInv E s) :
    CVarInv E (lodBlock s) := by
  unfold lodBlock
  split
  · have hbase := cvarInv_applyQList E (!s.ans.bHighLodDesired) lodCVarList s h
    generalize applyQList s (!s.ans.bHighLodDesired) lodCVarList = X at hbase ⊢
    exact cvarInv_congr hbase rfl rfl
  · exact h

theorem cvarInv_lumenBlock (E : CVarStore) (s : GState) (h : CVarInv E s) :
    CVarInv E (lumenBlock s) := by
  unfold lumenBlock
  split
  · have hbase := cvarInv_applyQList E (!s.ans.bHighLumenDesired) lumenCVarList s h
    generalize applyQList s (!s.ans.bHighLumenDesired) lumenCVarList = X at hbase ⊢
    exact cvarInv_congr hbase rfl rfl
  · exact h

theorem cvarInv_skylightBlock (E : CVarStore) (s : GState) (h : CVarInv E s) :
    CVarInv E (skylightBlock s) := by
  unfold skylightBlock
  split
  · have hbase := cvarInv_applyQList E (!s.ans.bHighSkyLightDesired) skylightCVarList s h
    generalize applyQList s (!s.ans.bHighSkyLightDesired) skylightCVarList = X at hbase ⊢
    exact cvarInv_congr hbase rfl rfl
  · exact h

theorem cvarInv_sgQualityBlock (E : CVarStore) (s : GState) (h : CVarInv E s) :
    CVarInv E (sgQualityBlock s) := by
  unfold sgQualityBlock
  split
  · have hbase := cvarInv_applyQList E (!s.ans.bHighSgQualityDesired) sgQualityCVarList s h
    generalize applyQList s (!s.ans.bHighSgQualityDesired) sgQualityCVarList = X at hbase ⊢
    exact cvarInv_congr hbase rfl rfl
  · exact h

theorem cvarInv_antiAliasingBlock (E : CVarStore) (s : GState) (h : CVarInv E s) :
    CVarInv E (antiAliasingBlock s) := by
  unfold antiAliasingBlock
  split
  · have hbase := cvarInv_applyQList E (!s.ans.bHighAntiAliasingDesired) antiAliasingCVarList s h
    generalize applyQList s (!s.ans.bHighAntiAliasingDesired) antiAliasingCVarList = X at hbase ⊢
    exact cvarInv_congr hbase rfl rfl
  · exact h

theorem cvarInv_highQualityRTPart (E : CVarStore) (wr : Bool) (s : GState)
    (h : CVarInv E s) : CVarInv E (highQualityRTPart wr s) := by
  unfold highQualityRTPart
  split
  · exact cvarInv_applyQList E wr qualityRTCVarList s h
  · exact h

theorem cvarInv_extremeRTPart (E : CVarStore) (wr : Bool) (s : GState)
    (h : CVarInv E s) : CVarInv E (extremeRTPart wr s) := by
  unfold extremeRTPart
  split
  · exact cvarInv_applyQList E wr extremeRTCVarList s h
  · exact h

theorem cvarInv_extremePart (E : CVarStore) (wr : Bool) (s : GState)
    (h : CVarInv E s) : CVarInv E (extremePart wr s) := by
  unfold extremePart
  split
  · exact cvarInv_applyQList E wr extremeTailCVarList _
      (cvarInv_extremeRTPart E wr _ (cvarInv_applyQList E wr extremeCVarList s h))
  · exact h

theorem cvarInv_highQualityBlock (E : CVarStore) (s : GState) (h : CVarInv E s) :
    CVarInv E (highQualityBlock s) := by
  unfold highQualityBlock
  split
  · dsimp only
    have hbase :=
      cvarInv_extremePart E (!s.ans.bHighQualityModeDesired) _
        (cvarInv_highQualityRTPart E (!s.ans.bHighQualityModeDesired) _
          (cvarInv_applyQList E (!s.ans.bHighQualityModeDesired)
            qualityMainCVarList s h))
    generalize extremePart (!s.ans.bHighQualityModeDesired)
      (highQualityRTPart (!s.ans.bHighQualityModeDesired)
        (applyQList s (!s.ans.bHighQualityModeDesired) qualityMainCVarList)) = X
      at hbase ⊢
    exact cvarInv_congr hbase rfl rfl
  · exact h

theorem cvarInv_configure (E : CVarStore) (s : GState) (pp : PPSettings)
    (h : CVarInv E s) :
    CVarInv E (configureRenderingSettingsForPhotography s pp).1 := by
  have h6 :
      CVarInv E
        (highQualityBlock (antiAliasingBlock (sgQualityBlock
          (skylightBlock (lumenBlock (lodBlock s)))))) :=
    cvarInv_highQualityBlock E _ (cvarInv_antiAliasingBlock E _
      (cvarInv_sgQualityBlock E _ (cvarInv_skylightBlock E _
        (cvarInv_lumenBlock E _ (cvarInv_lodBlock E _ h)))))
  unfold configureRenderingSettingsForPhotography
  dsimp only
  generalize highQualityBlock (antiAliasingBlock (sgQualityBlock
      (skylightBlock (lumenBlock (lodBlock s))))) = X at h6 ⊢
  split
  · have h10 := cvarInv_setCapturedCVar E _ (cvarInv_setCapturedCVar E _
      (cvarInv_setCapturedCVar E _ (cvarInv_setCapturedCVar E _ h6
        "r.disablelodfade" 1 false false)
        "r.streaming.framesforfullupdate" 1 false false)
        "r.Streaming.MaxNumTexturesToStreamPerFrame" 0 false false)
        "r.streaming.numstaticcomponentsprocessedperframe" 0 false false
    split
    · exact h10
    · exact h10
  · exact h6

/-! ### Mid-session operations leave the tracked state alone -/

theorem setCapturedCVarPredicated_cores (s : GState) (name : String) (val : ℚ)
    (cmp : ℚ → ℚ → Bool) (wr prio : Bool) :
    ansCore2 (setCapturedCVarPredicated s name val cmp wr prio) = ansCore2 s ∧
    engCore2 (setCapturedCVarPredicated s name val cmp wr prio) = engCore2 s := by
  unfold setCapturedCVarPredicated
  cases h1 : alookup s.ans.initialCVarMap name with
  | some v0 =>
      dsimp only
      split <;> exact ⟨rfl, rfl⟩
  | none =>
      cases h2 : alookup s.eng.cvars name with
      | some w =>
          dsimp only
          split <;> exact ⟨rfl, rfl⟩
      | none => exact ⟨rfl, rfl⟩

theorem applyQList_cores (wr : Bool) (l : List QEntry) :
    ∀ s : GState, ansCore2 (applyQList s wr l) = ansCore2 s ∧
      engCore2 (applyQList s wr l) = engCore2 s := by
  induction l with
  | nil => intro s; exact ⟨rfl, rfl⟩
  | cons e rest ih =>
      intro s
      have h1 : ansCore2 (applyQEntry wr s e) = ansCore2 s ∧
          engCore2 (applyQEntry wr s e) = engCore2 s :=
        setCapturedCVarPredicated_cores s e.name e.val (cmpFun e.cmp) wr
          e.useExistingPriority
      have h2 := ih (applyQEntry wr s e)
      exact ⟨h2.1.trans h1.1, h2.2.trans h1.2⟩

theorem lodBlock_cores (s : GState) :
    ansCore2 (lodBlock s) = ansCore2 s ∧ engCore2 (lodBlock s) = engCore2 s := by
  unfold lodBlock
  split
  · have hb := applyQList_cores (!s.ans.bHighLodDesired) lodCVarList s
    generalize applyQList s (!s.ans.bHighLodDesired) lodCVarList = X at hb ⊢
    exact ⟨hb.1, hb.2⟩
  · exact ⟨rfl, rfl⟩

theorem lumenBlock_cores (s : GState) :
    ansCore2 (lumenBlock s) = ansCore2 s ∧ engCore2 (lumenBlock s) = engCore2 s := by
  unfold lumenBlock
  split
  · have hb := applyQList_cores (!s.ans.bHighLumenDesired) lumenCVarList s
    generalize applyQList s (!s.ans.bHighLumenDesired) lumenCVarList = X at hb ⊢
    exact ⟨hb.1, hb.2⟩
  · exact ⟨rfl, rfl⟩

theorem skylightBlock_cores (s : GState) :
    ansCore2 (skylightBlock s) = ansCore2 s ∧
    engCore2 (skylightBlock s) = engCore2 s := by
  unfold skylightBlock
  split
  · have hb := applyQList_cores (!s.ans.bHighSkyLightDesired) skylightCVarList s
    generalize applyQList s (!s.ans.bHighSkyLightDesired) skylightCVarList = X at hb ⊢
    exact ⟨hb.1, hb.2⟩
  · exact ⟨rfl, rfl⟩

theorem sgQualityBlock_cores (s : GState) :
    ansCore2 (sgQualityBlock s) = ansCore2 s ∧
    engCore2 (sgQualityBlock s) = engCore2 s := by
  unfold sgQualityBlock
  split
  · have hb := applyQList_cores (!s.ans.bHighSgQualityDesired) sgQualityCVarList s
    generalize applyQList s (!s.ans.bHighSgQualityDesired) sgQualityCVarList = X at hb ⊢
    exact ⟨hb.1, hb.2⟩
  · exact ⟨rfl, rfl⟩

theorem antiAliasingBlock_cores (s : GState) :
    ansCore2 (antiAliasingBlock s) = ansCore2 s ∧
    engCore2 (antiAliasingBlock s) = engCore2 s := by
  unfold antiAliasingBlock
  split
  · have hb := applyQList_cores (!s.ans.bHighAntiAliasingDesired) antiAliasingCVarList s
    generalize applyQList s (!s.ans.bHighAntiAliasingDesired) antiAliasingCVarList = X at hb ⊢
    exact ⟨hb.1, hb.2⟩
  · exact ⟨rfl, rfl⟩

theorem highQualityRTPart_cores (wr : Bool) (s : GState) :
    ansCore2 (highQualityRTPart wr s) = ansCore2 s ∧
    engCore2 (highQualityRTPart wr s) = engCore2 s := by
  unfold highQualityRTPart
  split
  · exact applyQList_cores wr qualityRTCVarList s
  · exact ⟨rfl, rfl⟩

theorem extremeRTPart_cores (wr : Bool) (s : GState) :
    ansCore2 (extremeRTPart wr s) = ansCore2 s ∧
    engCore2 (extremeRTPart wr s) = engCore2 s := by
  unfold extremeRTPart
  split
  · exact applyQList_cores wr extremeRTCVarList s
  · exact ⟨rfl, rfl⟩

theorem extremePart_cores (wr : Bool) (s : GState) :
    ansCore2 (extremePart wr s) = ansCore2 s ∧
    engCore2 (extremePart wr s) = engCore2 s := by
  unfold extremePart
  split
  · have h1 := applyQList_cores wr extremeCVarList s
    have h2 := extremeRTPart_cores wr (applyQList s wr extremeCVarList)
    have h3 := applyQList_cores wr extremeTailCVarList
      (extremeRTPart wr (applyQList s wr extremeCVarList))
    exact ⟨h3.1.trans (h2.1.trans h1.1), h3.2.trans (h2.2.trans h1.2)⟩
  · exact ⟨rfl, rfl⟩

theorem highQualityBlock_cores (s : GState) :
    ansCore2 (highQualityBlock s) = ansCore2 s ∧
    engCore2 (highQualityBlock s) = engCore2 s := by
  unfold highQualityBlock
  split
  · dsimp only
    have h1 := applyQList_cores (!s.ans.bHighQualityModeDesired) qualityMainCVarList s
    have h2 := highQualityRTPart_cores (!s.ans.bHighQualityModeDesired)
      (applyQList s (!s.ans.bHighQualityModeDesired) qualityMainCVarList)
    have h3 := extremePart_cores (!s.ans.bHighQualityModeDesired)
      (highQualityRTPart (!s.ans.bHighQualityModeDesired)
        (applyQList s (!s.ans.bHighQualityModeDesired) qualityMainCVarList))
    have hb : ansCore2 (extremePart (!s.ans.bHighQualityModeDesired)
        (highQualityRTPart (!s.ans.bHighQualityModeDesired)
          (applyQList s (!s.ans.bHighQualityModeDesired) qualityMainCVarList))) =
          ansCore2 s ∧
        engCore2 (extremePart (!s.ans.bHighQualityModeDesired)
          (highQualityRTPart (!s.ans.bHighQualityModeDesired)
            (applyQList s (!s.ans.bHighQualityModeDesired) qualityMainCVarList))) =
          engCore2 s :=
      ⟨h3.1.trans (h2.1.trans h1.1), h3.2.trans (h2.2.trans h1.2)⟩
    generalize extremePart (!s.ans.bHighQualityModeDesired)
      (highQualityRTPart (!s.ans.bHighQualityModeDesired)
        (applyQList s (!s.ans.bHighQualityModeDesired) qualityMainCVarList)) = X
      at hb ⊢
    exact ⟨hb.1, hb.2⟩
  · exact ⟨rfl, rfl⟩

theorem configure_cores (s : GState) (pp : PPSettings) :
    ansCore2 (configureRenderingSettingsForPhotography s pp).1 = ansCore2 s ∧
    engCore2 (configureRenderingSettingsForPhotography s pp).1 = engCore2 s := by
  have c1 := lodBlock_cores s
  have c2 := lumenBlock_cores (lodBlock s)
  have c3 := skylightBlock_cores (lumenBlock (lodBlock s))
  have c4 := sgQualityBlock_cores (skylightBlock (lumenBlock (lodBlock s)))
  have c5 := antiAliasingBlock_cores (sgQualityBlock (skylightBlock (lumenBlock (lodBlock s))))
  have c6 := highQualityBlock_cores (antiAliasingBlock (sgQualityBlock (skylightBlock
    (lumenBlock (lodBlock s)))))
  have h6 : ansCore2 (highQualityBlock (antiAliasingBlock (sgQualityBlock (skylightBlock
      (lumenBlock (lodBlock s)))))) = ansCore2 s ∧
      engCore2 (highQualityBlock (antiAliasingBlock (sgQualityBlock (skylightBlock
        (lumenBlock (lodBlock s)))))) = engCore2 s :=
    ⟨c6.1.trans (c5.1.trans (c4.1.trans (c3.1.trans (c2.1.trans c1.1)))),
     c6.2.trans (c5.2.trans (c4.2.trans (c3.2.trans (c2.2.trans c1.2))))⟩
  unfold configureRenderingSettingsForPhotography
  dsimp only
  generalize highQualityBlock (antiAliasingBlock (sgQualityBlock
      (skylightBlock (lumenBlock (lodBlock s))))) = X at h6 ⊢
  split
  · have d1 := setCapturedCVarPredicated_cores X "r.disablelodfade" 1 (fun _ _ => true) false false
    have d2 := setCapturedCVarPredicated_cores (setCapturedCVar X "r.disablelodfade" 1)
      "r.streaming.framesforfullupdate" 1 (fun _ _ => true) false false
    have d3 := setCapturedCVarPredicated_cores
      (setCapturedCVar (setCapturedCVar X "r.disablelodfade" 1)
        "r.streaming.framesforfullupdate" 1)
      "r.Streaming.MaxNumTexturesToStreamPerFrame" 0 (fun _ _ => true) false false
    have d4 := setCapturedCVarPredicated_cores
      (setCapturedCVar (setCapturedCVar (setCapturedCVar X "r.disablelodfade" 1)
        "r.streaming.framesforfullupdate" 1)
        "r.Streaming.MaxNumTexturesToStreamPerFrame" 0)
      "r.streaming.numstaticcomponentsprocessedperframe" 0 (fun _ _ => true) false false
    have h10 : ansCore2 (setCapturedCVar (setCapturedCVar (setCapturedCVar
        (setCapturedCVar X "r.disablelodfade" 1) "r.streaming.framesforfullupdate" 1)
        "r.Streaming.MaxNumTexturesToStreamPerFrame" 0)
        "r.streaming.numstaticcomponentsprocessedperframe" 0) = ansCore2 s ∧
        engCore2 (setCapturedCVar (setCapturedCVar (setCapturedCVar
        (setCapturedCVar X "r.disablelodfade" 1) "r.streaming.framesforfullupdate" 1)
        "r.Streaming.MaxNumTexturesToStreamPerFrame" 0)
        "r.streaming.numstaticcomponentsprocessedperframe" 0) = engCore2 s :=
      ⟨d4.1.trans (d3.1.trans (d2.1.trans (d1.1.trans h6.1))),
       d4.2.trans (d3.2.trans (d2.2.trans (d1.2.trans h6.2)))⟩
    split
    · exact h10
    · exact h10
  · exact h6

/-! ### Session-invariant machinery -/

theorem sessionInv_transport {E : EngineState} {s s' : GState} (h : SessionInv E s)
    (ha : ansCore2 s' = ansCore2 s) (he : engCore2 s' = engCore2 s)
    (hc : CVarInv E.cvars s') : SessionInv E s' := by
  simp only [ansCore2, Prod.mk.injEq] at ha
  simp only [engCore2, Prod.mk.injEq] at he
  obtain ⟨a1, a2, a3, a4, a5, a6, a7, a8, a9, a10, a11, a12⟩ := ha
  obtain ⟨e1, e2, e3, e4, e5, e6, e7, e8⟩ := he
  refine ⟨a1.trans h.active, a2.trans h.notNew, a3.trans h.noDeact,
    a4.trans h.savedPaused, a5.trans h.savedMovable, a6.trans h.savedMsgs,
    a7.trans h.savedHUD, a8.trans h.savedSubs, a9.trans h.savedFade, ?_,
    e3.trans h.engMovable, e4.trans h.engMsgs, e5.trans h.engHudExists, ?_, ?_,
    ?_, ?_, ?_, hc⟩
  · intro hh
    rw [a11] at hh
    rw [a10]
    exact h.savedDilation hh
  · rw [e2, a11]
    exact h.engDilation
  · intro hh
    rw [a11] at hh
    rw [e1]
    exact h.engPaused hh
  · rw [e6, a12]
    exact h.engHUD
  · rw [e7, a12]
    exact h.engSubs
  · rw [e8, a12]
    exact h.engFade

theorem sessionInv_postProcess (E : EngineState) (ui : UICtx) (pp : PPSettings)
    (s : GState) (h : SessionInv E s) :
    SessionInv E (updatePostProcessing ui s pp).1 := by
  unfold updatePostProcessing
  rw [if_pos (by simp [h.active])]
  have hdo : CVarInv E.cvars (doCustomUIControlsEffect ui s) :=
    cvarInv_congr h.cvarInv rfl rfl
  have hcores := configure_cores (doCustomUIControlsEffect ui s) pp
  have hda : ansCore2 (doCustomUIControlsEffect ui s) = ansCore2 s := rfl
  have hde : engCore2 (doCustomUIControlsEffect ui s) = engCore2 s := rfl
  exact sessionInv_transport h (hcores.1.trans hda) (hcores.2.trans hde)
    (cvarInv_configure E.cvars _ pp hdo)

theorem sessionInv_captureStart (E : EngineState) (ct : CaptureType) (s : GState)
    (h : SessionInv E s) : SessionInv E (anselStartCaptureCallback ct s) :=
  sessionInv_transport h rfl rfl (cvarInv_congr h.cvarInv rfl rfl)

theorem sessionInv_captureStop (E : EngineState) (s : GState)
    (h : SessionInv E s) : SessionInv E (anselStopCaptureCallback s) :=
  sessionInv_transport h rfl rfl (cvarInv_congr h.cvarInv rfl rfl)

theorem sessionInv_changeQuality (E : EngineState) (q : Bool) (s : GState)
    (h : SessionInv E s) : SessionInv E (anselChangeQualityCallback q s) :=
  sessionInv_transport h rfl rfl (cvarInv_congr h.cvarInv rfl rfl)

/-! ### `setUpSessionCVars` only captures and sets CVars -/

theorem setCapturedCVarPredicated_full (s : GState) (name : String) (val : ℚ)
    (cmp : ℚ → ℚ → Bool) (wr prio : Bool) :
    ansFull (setCapturedCVarPredicated s name val cmp wr prio) = ansFull s ∧
    engFull (setCapturedCVarPredicated s name val cmp wr prio) = engFull s := by
  unfold setCapturedCVarPredicated
  cases h1 : alookup s.ans.initialCVarMap name with
  | some v0 =>
      dsimp only
      split <;> exact ⟨rfl, rfl⟩
  | none =>
      cases h2 : alookup s.eng.cvars name with
      | some w =>
          dsimp only
          split <;> exact ⟨rfl, rfl⟩
      | none => exact ⟨rfl, rfl⟩

theorem setUpSessionCVars_full (s : GState) :
    ansFull (setUpSessionCVars s) = ansFull s ∧
    engFull (setUpSessionCVars s) = engFull s := by
  have f1 := setCapturedCVarPredicated_full s
    "r.oneframethreadlag" 1 (fun _ _ => true) false false
  have f2 := setCapturedCVarPredicated_full
    (setCapturedCVar s "r.oneframethreadlag" 1)
    "r.streaming.minmipforsplitrequest" 1 (fun _ _ => true) false false
  have f3 := setCapturedCVarPredicated_full
    (setCapturedCVar (setCapturedCVar s "r.oneframethreadlag" 1)
      "r.streaming.minmipforsplitrequest" 1)
    "r.streaming.hiddenprimitivescale" (1/1000) (fun _ _ => true) false false
  have f4 := setCapturedCVarPredicated_full
    (setCapturedCVar (setCapturedCVar (setCapturedCVar s "r.oneframethreadlag" 1)
      "r.streaming.minmipforsplitrequest" 1)
      "r.streaming.hiddenprimitivescale" (1/1000))
    "r.Streaming.Boost" 1 (fun _ _ => true) false false
  have f5 := setCapturedCVarPredicated_full
    (setCapturedCVar (setCapturedCVar (setCapturedCVar
      (setCapturedCVar s "r.oneframethreadlag" 1)
      "r.streaming.minmipforsplitrequest" 1)
      "r.streaming.hiddenprimitivescale" (1/1000))
      "r.Streaming.Boost" 1)
    "r.motionblurquality" 0 (fun _ _ => true) false false
  exact ⟨f5.1.trans (f4.1.trans (f3.1.trans (f2.1.trans f1.1))),
         f5.2.trans (f4.2.trans (f3.2.trans (f2.2.trans f1.2)))⟩

theorem susc_bAnselSessionActive (s : GState) :
    (setUpSessionCVars s).ans.bAnselSessionActive = s.ans.bAnselSessionActive :=
  by
  have h := congrArg AnselState.bAnselSessionActive (setUpSessionCVars_full s).1
  exact h

theorem susc_bAnselSessionNewlyActive (s : GState) :
    (setUpSessionCVars s).ans.bAnselSessionNewlyActive =
      s.ans.bAnselSessionNewlyActive :=
  by
  have h := congrArg AnselState.bAnselSessionNewlyActive (setUpSessionCVars_full s).1
  exact h

theorem susc_bAnselSessionWantDeactivate (s : GState) :
    (setUpSessionCVars s).ans.bAnselSessionWantDeactivate =
      s.ans.bAnselSessionWantDeactivate :=
  by
  have h := congrArg AnselState.bAnselSessionWantDeactivate (setUpSessionCVars_full s).1
  exact h

theorem susc_numFramesSinceSessionStart (s : GState) :
    (setUpSessionCVars s).ans.numFramesSinceSessionStart =
      s.ans.numFramesSinceSessionStart :=
  by
  have h := congrArg AnselState.numFramesSinceSessionStart (setUpSessionCVars_full s).1
  exact h

theorem susc_bAutoPause (s : GState) :
    (setUpSessionCVars s).ans.bAutoPause = s.ans.bAutoPause :=
  by
  have h := congrArg AnselState.bAutoPause (setUpSessionCVars_full s).1
  exact h

theorem susc_bAutoPostprocess (s : GState) :
    (setUpSessionCVars s).ans.bAutoPostprocess = s.ans.bAutoPostprocess :=
  by
  have h := congrArg AnselState.bAutoPostprocess (setUpSessionCVars_full s).1
  exact h

theorem susc_bWasPausedBeforeSession (s : GState) :
    (setUpSessionCVars s).ans.bWasPausedBeforeSession =
      s.ans.bWasPausedBeforeSession :=
  by
  have h := congrArg AnselState.bWasPausedBeforeSession (setUpSessionCVars_full s).1
  exact h

theorem susc_bWasMovableCameraBeforeSession (s : GState) :
    (setUpSessionCVars s).ans.bWasMovableCameraBeforeSession =
      s.ans.bWasMovableCameraBeforeSession :=
  by
  have h := congrArg AnselState.bWasMovableCameraBeforeSession (setUpSessionCVars_full s).1
  exact h

theorem susc_fTimeDilationBeforeSession (s : GState) :
    (setUpSessionCVars s).ans.fTimeDilationBeforeSession =
      s.ans.fTimeDilationBeforeSession :=
  by
  have h := congrArg AnselState.fTimeDilationBeforeSession (setUpSessionCVars_full s).1
  exact h

theorem susc_paused (s : GState) :
    (setUpSessionCVars s).eng.paused = s.eng.paused :=
  by
  have h := congrArg EngineState.paused (setUpSessionCVars_full s).2
  exact h

theorem susc_timeDilation (s : GState) :
    (setUpSessionCVars s).eng.timeDilation = s.eng.timeDilation :=
  by
  have h := congrArg EngineState.timeDilation (setUpSessionCVars_full s).2
  exact h

theorem susc_cameraMovableWhenPaused (s : GState) :
    (setUpSessionCVars s).eng.cameraMovableWhenPaused =
      s.eng.cameraMovableWhenPaused :=
  by
  have h := congrArg EngineState.cameraMovableWhenPaused (setUpSessionCVars_full s).2
  exact h

theorem susc_screenMessagesEnabled (s : GState) :
    (setUpSessionCVars s).eng.screenMessagesEnabled =
      s.eng.screenMessagesEnabled :=
  by
  have h := congrArg EngineState.screenMessagesEnabled (setUpSessionCVars_full s).2
  exact h

theorem susc_hudExists (s : GState) :
    (setUpSessionCVars s).eng.hudExists = s.eng.hudExists :=
  by
  have h := congrArg EngineState.hudExists (setUpSessionCVars_full s).2
  exact h

theorem susc_showingHUD (s : GState) :
    (setUpSessionCVars s).eng.showingHUD = s.eng.showingHUD :=
  by
  have h := congrArg EngineState.showingHUD (setUpSessionCVars_full s).2
  exact h

theorem susc_subtitlesEnabled (s : GState) :
    (setUpSessionCVars s).eng.subtitlesEnabled = s.eng.subtitlesEnabled :=
  by
  have h := congrArg EngineState.subtitlesEnabled (setUpSessionCVars_full s).2
  exact h

theorem susc_fadingEnabled (s : GState) :
    (setUpSessionCVars s).eng.fadingEnabled = s.eng.fadingEnabled :=
  by
  have h := congrArg EngineState.fadingEnabled (setUpSessionCVars_full s).2
  exact h

/-! ### Per-frame behaviour of `UpdateCamera` -/

theorem preSessionScan_active (ctx : FrameCtx) (s : GState)
    (h : s.ans.bAnselSessionActive = true) :
    preSessionScan ctx s = { s with ans := { s.ans with bForceDisallow := false } } := by
  unfold preSessionScan
  simp [h]

theorem maybePauseAtFrame2_noop (s : GState)
    (h : s.ans.numFramesSinceSessionStart ≠ 2) : maybePauseAtFrame2 s = s := by
  unfold maybePauseAtFrame2
  rw [if_neg h]

theorem updateCamera_midSession (ctx : FrameCtx) (s : GState)
    (hact : s.ans.bAnselSessionActive = true)
    (hnew : s.ans.bAnselSessionNewlyActive = false)
    (hdeact : s.ans.bAnselSessionWantDeactivate = false) :
    (updateCamera ctx s).1 =
      maybePauseAtFrame2
        { s with ans := { s.ans with
            bForceDisallow := false,
            numFramesSinceSessionStart := s.ans.numFramesSinceSessionStart + 1,
            bAnselCaptureNewlyActive := false,
            bAnselCaptureNewlyFinished := false,
            bCameraIsInOriginalState :=
              if s.ans.bAnselCaptureActive = false then ctx.blueprintCameraInOriginal
              else false } } := by
  unfold updateCamera bumpFrameCounter clearCaptureEdgeFlags
  rw [preSessionScan_active ctx s hact]
  by_cases hcap : s.ans.bAnselCaptureActive = false <;>
    simp [hact, hnew, hdeact, hcap]

theorem updateCamera_startFrame (ctx : FrameCtx) (s : GState)
    (hact : s.ans.bAnselSessionActive = true)
    (hnew : s.ans.bAnselSessionNewlyActive = true)
    (hdeact : s.ans.bAnselSessionWantDeactivate = false) :
    (updateCamera ctx s).1 =
      maybePauseAtFrame2 (sessionStartBranch ctx
        { s with ans := { s.ans with
            bForceDisallow := false,
            numFramesSinceSessionStart := s.ans.numFramesSinceSessionStart + 1,
            bAnselCaptureNewlyActive := false,
            bAnselCaptureNewlyFinished := false,
            bCameraIsInOriginalState := false } }) := by
  unfold updateCamera bumpFrameCounter clearCaptureEdgeFlags
  rw [preSessionScan_active ctx s hact]
  simp [hact, hnew, hdeact]

theorem updateCamera_deactivateFrame (ctx : FrameCtx) (s : GState)
    (hact : s.ans.bAnselSessionActive = true)
    (hdeact : s.ans.bAnselSessionWantDeactivate = true) :
    (updateCamera ctx s).1 =
      sessionRestore
        { s with ans := { s.ans with
            bForceDisallow := false,
            numFramesSinceSessionStart := s.ans.numFramesSinceSessionStart + 1,
            bAnselCaptureNewlyActive := false,
            bAnselCaptureNewlyFinished := false } } := by
  unfold updateCamera bumpFrameCounter clearCaptureEdgeFlags
  rw [preSessionScan_active ctx s hact]
  simp [hact, hdeact]

theorem sessionInv_maybePause (E : EngineState) (s : GState)
    (h : SessionInv E s) : SessionInv E (maybePauseAtFrame2 s) := by
  unfold maybePauseAtFrame2
  split
  · split
    · rename_i hcond
      refine ⟨h.active, h.notNew, h.noDeact, h.savedPaused, h.savedMovable,
        h.savedMsgs, h.savedHUD, h.savedSubs, h.savedFade, h.savedDilation,
        h.engMovable, h.engMsgs, h.engHudExists, h.engDilation, ?_, h.engHUD,
        h.engSubs, h.engFade, cvarInv_congr h.cvarInv rfl rfl⟩
      intro hh
      rw [h.savedPaused] at hcond
      rw [hh] at hcond
      exact Bool.noConfusion hcond
    · exact h
  · exact h

theorem sessionInv_frame (E : EngineState) (ctx : FrameCtx) (s : GState)
    (h : SessionInv E s) : SessionInv E ((updateCamera ctx s).1) := by
  rw [updateCamera_midSession ctx s h.active h.notNew h.noDeact]
  exact sessionInv_maybePause E _
    (sessionInv_transport h rfl rfl (cvarInv_congr h.cvarInv rfl rfl))

theorem sessionInv_applyOp (E : EngineState) (s : GState) (op : SessionOp)
    (h : SessionInv E s) : SessionInv E (applyOp s op) := by
  cases op with
  | frame ctx => exact sessionInv_frame E ctx s h
  | postProcess ui pp => exact sessionInv_postProcess E ui pp s h
  | captureStart ct => exact sessionInv_captureStart E ct s h
  | captureStop => exact sessionInv_captureStop E s h
  | changeQuality q => exact sessionInv_changeQuality E q s h

theorem sessionInv_applyOps (E : EngineState) (ops : List SessionOp) :
    ∀ s : GState, SessionInv E s → SessionInv E (applyOps s ops) := by
  induction ops with
  | nil => intro s h; exact h
  | cons op rest ih =>
      intro s h
      exact ih (applyOp s op) (sessionInv_applyOp E s op h)

theorem stopCallback_midSession (s : GState)
    (hact : s.ans.bAnselSessionActive = true)
    (hnew : s.ans.bAnselSessionNewlyActive = false) :
    anselStopSessionCallback s =
      { s with ans := { s.ans with bAnselSessionWantDeactivate := true } } := by
  unfold anselStopSessionCallback
  simp [hact, hnew]

/-- The deactivation branch undoes every engine-state override recorded by
the invariant and restores every captured CVar. -/
theorem sessionRestore_conclusion (E : EngineState) (s : GState)
    (hsavedPaused : s.ans.bWasPausedBeforeSession = E.paused)
    (hsavedMovable : s.ans.bWasMovableCameraBeforeSession = E.cameraMovableWhenPaused)
    (hsavedMsgs : s.ans.bWasScreenMessagesEnabledBeforeSession = E.screenMessagesEnabled)
    (hsavedHUD : s.ans.bWasShowingHUDBeforeSession = (E.hudExists && E.showingHUD))
    (hsavedSubs : s.ans.bWereSubtitlesEnabledBeforeSession = E.subtitlesEnabled)
    (hsavedFade : s.ans.bWasFadingEnabledBeforeSession = E.fadingEnabled)
    (hsavedDilation : (s.ans.bAutoPause && !E.paused) = true →
      s.ans.fTimeDilationBeforeSession = E.timeDilation)
    (hengDilation : s.eng.timeDilation =
      (if (s.ans.bAutoPause && !E.paused) = true then 0 else E.timeDilation))
    (hengPaused : (s.ans.bAutoPause && !E.paused) = false → s.eng.paused = E.paused)
    (hengHudExists : s.eng.hudExists = E.hudExists)
    (hengHUD : s.eng.showingHUD =
      (if (s.ans.bAutoPostprocess && (E.hudExists && E.showingHUD)) = true then false
       else E.showingHUD))
    (hengSubs : s.eng.subtitlesEnabled =
      (if s.ans.bAutoPostprocess = true then false else E.subtitlesEnabled))
    (hengFade : s.eng.fadingEnabled =
      (if s.ans.bAutoPostprocess = true then false else E.fadingEnabled))
    (hcv : CVarInv E.cvars s) :
    (sessionRestore s).eng.paused = E.paused ∧
    (sessionRestore s).eng.timeDilation = E.timeDilation ∧
    (sessionRestore s).eng.cameraMovableWhenPaused = E.cameraMovableWhenPaused ∧
    (sessionRestore s).eng.screenMessagesEnabled = E.screenMessagesEnabled ∧
    (sessionRestore s).eng.hudExists = E.hudExists ∧
    (sessionRestore s).eng.showingHUD = E.showingHUD ∧
    (sessionRestore s).eng.subtitlesEnabled = E.subtitlesEnabled ∧
    (sessionRestore s).eng.fadingEnabled = E.fadingEnabled ∧
    (∀ n, alookup (sessionRestore s).eng.cvars n = alookup E.cvars n) ∧
    (sessionRestore s).ans.initialCVarMap = [] := by
  obtain ⟨hnd, hcap, hun, hkeys⟩ := hcv
  have hrest : ∀ n, alookup (restoreCVars s.eng.cvars s.ans.initialCVarMap) n =
      alookup E.cvars n :=
    restoreCVars_lookup s.ans.initialCVarMap s.eng.cvars E.cvars hnd hcap hun hkeys
  unfold sessionRestore
  dsimp only
  rw [hsavedPaused, hsavedMovable, hsavedMsgs, hsavedHUD, hsavedSubs, hsavedFade]
  refine ⟨?_, ?_, rfl, rfl, hengHudExists, ?_, ?_, ?_, hrest, rfl⟩
  · -- paused
    by_cases hap : (s.ans.bAutoPause && !E.paused) = true
    · rw [if_pos hap]
      rw [Bool.and_eq_true] at hap
      have h2 : E.paused = false := by simpa using hap.2
      rw [h2]
    · rw [if_neg hap]
      exact hengPaused (by simpa using hap)
  · -- time dilation
    by_cases hap : (s.ans.bAutoPause && !E.paused) = true
    · rw [if_pos hap]
      exact hsavedDilation hap
    · rw [if_neg hap]
      rw [hengDilation, if_neg (by simpa using hap)]
  · -- HUD visibility
    by_cases hpp : s.ans.bAutoPostprocess = true
    · by_cases hEh : (E.hudExists && E.showingHUD) = true
      · rw [if_pos (by simp [hpp, hEh])]
        have hsh : E.showingHUD = true := by
          rw [Bool.and_eq_true] at hEh
          exact hEh.2
        rw [hengHUD, if_pos (by simp [hpp, hEh]), hsh]
        rfl
      · rw [if_neg (by simp [hpp, hEh])]
        rw [hengHUD, if_neg (by simp [hpp, hEh])]
    · rw [if_neg (by simp [hpp])]
      rw [hengHUD, if_neg (by simp [hpp])]
  · -- subtitles
    by_cases hpp : s.ans.bAutoPostprocess = true
    · by_cases hEs : E.subtitlesEnabled = true
      · rw [if_pos (by simp [hpp, hEs])]
        exact hEs.symm
      · rw [if_neg (by simp [hpp, hEs])]
        rw [hengSubs, if_pos hpp]
        simpa using (Bool.not_eq_true _).mp hEs |>.symm
    · rw [if_neg (by simp [hpp])]
      rw [hengSubs, if_neg hpp]
  · -- fading
    by_cases hpp : s.ans.bAutoPostprocess = true
    · by_cases hEf : E.fadingEnabled = true
      · rw [if_pos (by simp [hpp, hEf])]
        exact hEf.symm
      · rw [if_neg (by simp [hpp, hEf])]
        rw [hengFade, if_pos hpp]
        simpa using (Bool.not_eq_true _).mp hEf |>.symm
    · rw [if_neg (by simp [hpp])]
      rw [hengFade, if_neg hpp]

/-! ### The session-start frame establishes the invariant -/

theorem sessionStartBranch_numFrames (ctx : FrameCtx) (t : GState) :
    (sessionStartBranch ctx t).ans.numFramesSinceSessionStart = 0 := by
  unfold sessionStartBranch
  dsimp only
  rw [susc_numFramesSinceSessionStart]

theorem sessionInv_startBranch (ctx : FrameCtx) (t : GState)
    (hact : t.ans.bAnselSessionActive = true)
    (hdeact : t.ans.bAnselSessionWantDeactivate = false)
    (hmap : t.ans.initialCVarMap = []) :
    SessionInv t.eng (sessionStartBranch ctx t) := by
  unfold sessionStartBranch
  dsimp only
  refine ⟨?_, rfl, ?_, ?_, ?_, ?_, ?_, ?_, ?_, ?_, ?_, rfl, ?_, ?_, ?_, ?_, ?_,
    ?_, ?_⟩
  · -- active
    rw [susc_bAnselSessionActive]
    exact hact
  · -- no deactivation pending
    rw [susc_bAnselSessionWantDeactivate]
    exact hdeact
  · -- saved paused
    rw [susc_bWasPausedBeforeSession]
  · -- saved movability
    rw [susc_bWasMovableCameraBeforeSession]
  · -- saved screen messages
    rw [susc_screenMessagesEnabled]
  · -- saved HUD
    rw [susc_hudExists, susc_showingHUD]
  · -- saved subtitles
    rw [susc_subtitlesEnabled]
  · -- saved fading
    rw [susc_fadingEnabled]
  · -- saved time dilation
    intro hh
    rw [susc_bAutoPause] at hh
    rw [susc_fTimeDilationBeforeSession]
    dsimp only at hh ⊢
    rw [if_pos hh]
  · -- engine movability forced on
    rw [susc_cameraMovableWhenPaused]
  · -- hud existence unchanged
    rw [susc_hudExists]
  · -- engine time dilation
    rw [susc_timeDilation, susc_bAutoPause]
  · -- engine paused untouched
    intro _
    rw [susc_paused]
  · -- engine HUD visibility
    rw [susc_bAutoPostprocess, susc_showingHUD, susc_hudExists]
    dsimp only
    by_cases hc :
        (decide (getCVarD t.eng.cvars "r.Photography.AutoPostprocess" 1 ≠ 0) &&
          (t.eng.hudExists && t.eng.showingHUD)) = true
    · rw [if_pos hc, if_pos hc]
      rw [Bool.and_eq_true] at hc
      rw [Bool.and_eq_true] at hc
      · simp [hc.2.2]
    · rw [if_neg hc, if_neg hc]
  · -- engine subtitles
    rw [susc_bAutoPostprocess, susc_subtitlesEnabled]
  · -- engine fading
    rw [susc_bAutoPostprocess, susc_fadingEnabled]
  · -- captured-CVar invariant
    refine cvarInv_congr (cvarInv_setUpSessionCVars t.eng.cvars _ ?_) rfl rfl
    refine ⟨?_, ?_, ?_, ?_⟩
    · show (t.ans.initialCVarMap.map Prod.fst).Nodup
      rw [hmap]
      exact List.nodup_nil
    · intro n v hn
      have hn' : alookup t.ans.initialCVarMap n = some v := hn
      rw [hmap] at hn'
      exact absurd hn' (by simp [alookup])
    · intro n _
      rfl
    · intro n
      rfl

theorem sessionInv_establish (ctx : FrameCtx) (s : GState)
    (hact : s.ans.bAnselSessionActive = true)
    (hnew : s.ans.bAnselSessionNewlyActive = true)
    (hdeact : s.ans.bAnselSessionWantDeactivate = false)
    (hmap : s.ans.initialCVarMap = []) :
    SessionInv s.eng ((updateCamera ctx s).1) := by
  rw [updateCamera_startFrame ctx s hact hnew hdeact]
  rw [maybePauseAtFrame2_noop _ (by rw [sessionStartBranch_numFrames]; decide)]
  exact sessionInv_startBranch ctx
    { s with ans := { s.ans with
        bForceDisallow := false,
        numFramesSinceSessionStart := s.ans.numFramesSinceSessionStart + 1,
        bAnselCaptureNewlyActive := false,
        bAnselCaptureNewlyFinished := false,
        bCameraIsInOriginalState := false } }
    hact hdeact hmap

/-- C1: a full photography session is a round trip on engine and render
state.  Starting a session (allowed start callback plus the session-start
frame), running any mid-session activity (frames, post-processing passes
with their quality-CVar writes, capture and quality callbacks), then
stopping it (stop callback plus the deactivation frame) restores the
pause state, time dilation, camera-movable-when-paused flag,
screen-messages flag, HUD visibility, subtitles and fading to their
pre-session values, sets every console variable captured into
`InitialCVarMap` back (with current priority) to the float value it had
when first captured — so the CVar store is pointwise unchanged — and
empties `InitialCVarMap`. -/
theorem session_round_trip_restores_state
    (E : EngineState) (a0 : AnselState) (lg : List String)
    (ctx0 ctxEnd : FrameCtx) (ops : List SessionOp)
    (hdeact : a0.bAnselSessionWantDeactivate = false)
    (hmap : a0.initialCVarMap = [])
    (hforce : a0.bForceDisallow = false)
    (hallow : getCVarD E.cvars "r.Photography.Allow" 1 ≠ 0) :
    (runPhotoTrip false ctx0 ops ctxEnd ⟨E, a0, lg⟩).eng.paused = E.paused ∧
    (runPhotoTrip false ctx0 ops ctxEnd ⟨E, a0, lg⟩).eng.timeDilation = E.timeDilation ∧
    (runPhotoTrip false ctx0 ops ctxEnd ⟨E, a0, lg⟩).eng.cameraMovableWhenPaused =
      E.cameraMovableWhenPaused ∧
    (runPhotoTrip false ctx0 ops ctxEnd ⟨E, a0, lg⟩).eng.screenMessagesEnabled =
      E.screenMessagesEnabled ∧
    (runPhotoTrip false ctx0 ops ctxEnd ⟨E, a0, lg⟩).eng.hudExists = E.hudExists ∧
    (runPhotoTrip false ctx0 ops ctxEnd ⟨E, a0, lg⟩).eng.showingHUD = E.showingHUD ∧
    (runPhotoTrip false ctx0 ops ctxEnd ⟨E, a0, lg⟩).eng.subtitlesEnabled =
      E.subtitlesEnabled ∧
    (runPhotoTrip false ctx0 ops ctxEnd ⟨E, a0, lg⟩).eng.fadingEnabled =
      E.fadingEnabled ∧
    (∀ n, alookup (runPhotoTrip false ctx0 ops ctxEnd ⟨E, a0, lg⟩).eng.cvars n =
      alookup E.cvars n) ∧
    (runPhotoTrip false ctx0 ops ctxEnd ⟨E, a0, lg⟩).ans.initialCVarMap = [] := by
  have hcb : (anselStartSessionCallback false {} ⟨E, a0, lg⟩).2.1 =
      { eng := E,
        ans := { a0 with
          bAnselSessionActive := true,
          bAnselSessionNewlyActive := true,
          bHighQualityModeDesired := false },
        log := lg } := by
    unfold anselStartSessionCallback
    rw [if_pos ⟨hforce, hallow, rfl⟩]
  unfold runPhotoTrip
  dsimp only
  rw [hcb]
  have h1 : SessionInv E ((updateCamera ctx0
      { eng := E,
        ans := { a0 with
          bAnselSessionActive := true,
          bAnselSessionNewlyActive := true,
          bHighQualityModeDesired := false },
        log := lg }).1) :=
    sessionInv_establish ctx0
      { eng := E,
        ans := { a0 with
          bAnselSessionActive := true,
          bAnselSessionNewlyActive := true,
          bHighQualityModeDesired := false },
        log := lg }
      rfl rfl hdeact hmap
  generalize hgen : (updateCamera ctx0
      { eng := E,
        ans := { a0 with
          bAnselSessionActive := true,
          bAnselSessionNewlyActive := true,
          bHighQualityModeDesired := false },
        log := lg }).1 = s2 at h1 ⊢
  have h3 : SessionInv E (applyOps s2 ops) := sessionInv_applyOps E ops s2 h1
  generalize hgen3 : applyOps s2 ops = s3 at h3 ⊢
  rw [stopCallback_midSession s3 h3.active h3.notNew]
  rw [updateCamera_deactivateFrame ctxEnd
    { s3 with ans := { s3.ans with bAnselSessionWantDeactivate := true } }
    h3.active rfl]
  exact sessionRestore_conclusion E _ h3.savedPaused h3.savedMovable
    h3.savedMsgs h3.savedHUD h3.savedSubs h3.savedFade h3.savedDilation
    h3.engDilation h3.engPaused h3.engHudExists h3.engHUD h3.engSubs h3.engFade
    (cvarInv_congr h3.cvarInv rfl rfl)

/-- Witness for C1 at a concrete engine state, empty mid-session activity
and default contexts. -/
theorem session_round_trip_restores_state_witness :
    (runPhotoTrip false {} [] {}
      ⟨{ cvars := [("r.Photography.Allow", 1), ("r.Photography.AutoPause", 1),
           ("r.Photography.AutoPostprocess", 1), ("r.motionblurquality", 3)],
         paused := false, timeDilation := 1, cameraMovableWhenPaused := false,
         screenMessagesEnabled := true, hudExists := true, showingHUD := true,
         subtitlesEnabled := true, fadingEnabled := true }, {}, []⟩).eng.timeDilation = 1 ∧
    alookup (runPhotoTrip false {} [] {}
      ⟨{ cvars := [("r.Photography.Allow", 1), ("r.Photography.AutoPause", 1),
           ("r.Photography.AutoPostprocess", 1), ("r.motionblurquality", 3)],
         paused := false, timeDilation := 1, cameraMovableWhenPaused := false,
         screenMessagesEnabled := true, hudExists := true, showingHUD := true,
         subtitlesEnabled := true, fadingEnabled := true }, {}, []⟩).eng.cvars
      "r.motionblurquality" = some 3 ∧
    (runPhotoTrip false {} [] {}
      ⟨{ cvars := [("r.Photography.Allow", 1), ("r.Photography.AutoPause", 1),
           ("r.Photography.AutoPostprocess", 1), ("r.motionblurquality", 3)],
         paused := false, timeDilation := 1, cameraMovableWhenPaused := false,
         screenMessagesEnabled := true, hudExists := true, showingHUD := true,
         subtitlesEnabled := true, fadingEnabled := true }, {}, []⟩).ans.initialCVarMap = [] := by
  have h := session_round_trip_restores_state
    { cvars := [("r.Photography.Allow", 1), ("r.Photography.AutoPause", 1),
        ("r.Photography.AutoPostprocess", 1), ("r.motionblurquality", 3)],
      paused := false, timeDilation := 1, cameraMovableWhenPaused := false,
      screenMessagesEnabled := true, hudExists := true, showingHUD := true,
      subtitlesEnabled := true, fadingEnabled := true }
    {} [] {} {} [] rfl rfl rfl (by decide)
  exact ⟨h.2.1, (h.2.2.2.2.2.2.2.2.1 "r.motionblurquality").trans (by decide),
    h.2.2.2.2.2.2.2.2.2⟩

/-! ### Frames outside a session -/

theorem updateCamera_inactive (ctx : FrameCtx) (s : GState)
    (h : s.ans.bAnselSessionActive = false) :
    (updateCamera ctx s).1 =
      { s with ans := { s.ans with
          bIsOrthoProjection := ctx.orthoProjection,
          bForceDisallow := ctx.splitscreen || ctx.stereoscopic } } := by
  unfold updateCamera preSessionScan
  simp [h]

/-- C2: pause/unpause is sequenced across frame boundaries.  (i) On the
frame where the session becomes newly active, with auto-pause on and the
game not already paused, world time dilation is set to 0 but the game is
not paused.  (ii) On later in-session frames, `SetPause(true)` happens
exactly on the frame where the incremented `NumFramesSinceSessionStart`
equals 2 (and auto-pause is on and the game was not paused before the
session) — never on any other frame.  (iii) On the deactivation frame,
when auto-pause was on and the game was not paused before the session,
time dilation is restored to its saved pre-session value and the game is
unpaused. -/
theorem pause_sequencing (ctx : FrameCtx) (s : GState) :
    (s.ans.bAnselSessionActive = true → s.ans.bAnselSessionNewlyActive = true →
     s.ans.bAnselSessionWantDeactivate = false →
     getCVarD s.eng.cvars "r.Photography.AutoPause" 1 ≠ 0 →
     s.eng.paused = false →
     (updateCamera ctx s).1.eng.timeDilation = 0 ∧
     (updateCamera ctx s).1.eng.paused = false) ∧
    (s.ans.bAnselSessionActive = true → s.ans.bAnselSessionNewlyActive = false →
     s.ans.bAnselSessionWantDeactivate = false →
     (updateCamera ctx s).1.eng.paused =
       (if s.ans.numFramesSinceSessionStart + 1 = 2 ∧
           (s.ans.bAutoPause && !s.ans.bWasPausedBeforeSession) = true
        then true else s.eng.paused)) ∧
    (s.ans.bAnselSessionActive = true → s.ans.bAnselSessionWantDeactivate = true →
     s.ans.bAutoPause = true → s.ans.bWasPausedBeforeSession = false →
     (updateCamera ctx s).1.eng.timeDilation = s.ans.fTimeDilationBeforeSession ∧
     (updateCamera ctx s).1.eng.paused = false ∧
     (updateCamera ctx s).1.ans.bPausedInternally = false) := by
  refine ⟨?_, ?_, ?_⟩
  · intro h1 h2 h3 h4 h5
    rw [updateCamera_startFrame ctx s h1 h2 h3,
        maybePauseAtFrame2_noop _ (by rw [sessionStartBranch_numFrames]; decide)]
    unfold sessionStartBranch
    dsimp only
    have hAP : decide (getCVarD s.eng.cvars "r.Photography.AutoPause" 1 ≠ 0) = true :=
      decide_eq_true h4
    constructor
    · rw [susc_timeDilation]
      dsimp only
      simp [hAP, h5]
    · rw [susc_paused]
      dsimp only
      exact h5
  · intro h1 h2 h3
    rw [updateCamera_midSession ctx s h1 h2 h3]
    unfold maybePauseAtFrame2
    dsimp only
    by_cases hn : s.ans.numFramesSinceSessionStart + 1 = 2 <;>
      by_cases hb : (s.ans.bAutoPause && !s.ans.bWasPausedBeforeSession) = true <;>
      simp [hn, hb]
  · intro h1 h2 h3 h4
    rw [updateCamera_deactivateFrame ctx s h1 h2]
    unfold sessionRestore
    dsimp only
    simp [h3, h4]

/-- Witness for C2: all three phases exercised on concrete states. -/
theorem pause_sequencing_witness :
    ((updateCamera {}
      ⟨{ cvars := [("r.Photography.AutoPause", 1)], paused := false,
         timeDilation := 5, cameraMovableWhenPaused := false,
         screenMessagesEnabled := false, hudExists := false, showingHUD := false,
         subtitlesEnabled := false, fadingEnabled := false },
       { bAnselSessionActive := true, bAnselSessionNewlyActive := true },
       []⟩).1.eng.timeDilation = 0 ∧
     (updateCamera {}
      ⟨{ cvars := [("r.Photography.AutoPause", 1)], paused := false,
         timeDilation := 5, cameraMovableWhenPaused := false,
         screenMessagesEnabled := false, hudExists := false, showingHUD := false,
         subtitlesEnabled := false, fadingEnabled := false },
       { bAnselSessionActive := true, bAnselSessionNewlyActive := true },
       []⟩).1.eng.paused = false) ∧
    (updateCamera {}
      ⟨{ cvars := [], paused := false, timeDilation := 0,
         cameraMovableWhenPaused := true, screenMessagesEnabled := false,
         hudExists := false, showingHUD := false, subtitlesEnabled := false,
         fadingEnabled := false },
       { bAnselSessionActive := true, bAutoPause := true,
         numFramesSinceSessionStart := 1 },
       []⟩).1.eng.paused =
      (if 1 + 1 = 2 ∧ ((true : Bool) && !(false : Bool)) = true then true
       else false) ∧
    ((updateCamera {}
      ⟨{ cvars := [], paused := true, timeDilation := 0,
         cameraMovableWhenPaused := true, screenMessagesEnabled := false,
         hudExists := false, showingHUD := false, subtitlesEnabled := false,
         fadingEnabled := false },
       { bAnselSessionActive := true, bAnselSessionWantDeactivate := true,
         bAutoPause := true, fTimeDilationBeforeSession := 7 },
       []⟩).1.eng.timeDilation = 7 ∧
     (updateCamera {}
      ⟨{ cvars := [], paused := true, timeDilation := 0,
         cameraMovableWhenPaused := true, screenMessagesEnabled := false,
         hudExists := false, showingHUD := false, subtitlesEnabled := false,
         fadingEnabled := false },
       { bAnselSessionActive := true, bAnselSessionWantDeactivate := true,
         bAutoPause := true, fTimeDilationBeforeSession := 7 },
       []⟩).1.eng.paused = false) := by
  refine ⟨?_, ?_, ?_⟩
  · have h := (pause_sequencing {}
      ⟨{ cvars := [("r.Photography.AutoPause", 1)], paused := false,
         timeDilation := 5, cameraMovableWhenPaused := false,
         screenMessagesEnabled := false, hudExists := false, showingHUD := false,
         subtitlesEnabled := false, fadingEnabled := false },
       { bAnselSessionActive := true, bAnselSessionNewlyActive := true },
       []⟩).1 rfl rfl rfl (by decide) rfl
    exact h
  · have h := (pause_sequencing {}
      ⟨{ cvars := [], paused := false, timeDilation := 0,
         cameraMovableWhenPaused := true, screenMessagesEnabled := false,
         hudExists := false, showingHUD := false, subtitlesEnabled := false,
         fadingEnabled := false },
       { bAnselSessionActive := true, bAutoPause := true,
         numFramesSinceSessionStart := 1 },
       []⟩).2.1 rfl rfl rfl
    exact h
  · have h := (pause_sequencing {}
      ⟨{ cvars := [], paused := true, timeDilation := 0,
         cameraMovableWhenPaused := true, screenMessagesEnabled := false,
         hudExists := false, showingHUD := false, subtitlesEnabled := false,
         fadingEnabled := false },
       { bAnselSessionActive := true, bAnselSessionWantDeactivate := true,
         bAutoPause := true, fTimeDilationBeforeSession := 7 },
       []⟩).2.2 rfl rfl rfl rfl
    exact ⟨h.1, h.2.1⟩

/-! ### Session-flag bookkeeping across operations (for C9) -/

theorem maybePauseAtFrame2_flags (s : GState) :
    (maybePauseAtFrame2 s).ans.bAnselSessionActive = s.ans.bAnselSessionActive ∧
    (maybePauseAtFrame2 s).ans.bAnselSessionNewlyActive =
      s.ans.bAnselSessionNewlyActive ∧
    (maybePauseAtFrame2 s).ans.bAnselSessionWantDeactivate =
      s.ans.bAnselSessionWantDeactivate := by
  unfold maybePauseAtFrame2
  split
  · split
    · exact ⟨rfl, rfl, rfl⟩
    · exact ⟨rfl, rfl, rfl⟩
  · exact ⟨rfl, rfl, rfl⟩

theorem sessionStartBranch_flags (ctx : FrameCtx) (t : GState) :
    (sessionStartBranch ctx t).ans.bAnselSessionActive =
      t.ans.bAnselSessionActive ∧
    (sessionStartBranch ctx t).ans.bAnselSessionNewlyActive = false ∧
    (sessionStartBranch ctx t).ans.bAnselSessionWantDeactivate =
      t.ans.bAnselSessionWantDeactivate := by
  unfold sessionStartBranch
  dsimp only
  exact ⟨susc_bAnselSessionActive _, rfl, susc_bAnselSessionWantDeactivate _⟩

/-- The session-contract invariant: a pending deactivation implies the
session is active and its start frame has already run, and an open SDK
session implies the plugin session is active with no pending
deactivation. -/
theorem reachAnsel_invariant (p : GState × Bool) (h : ReachAnsel p) :
    (p.1.ans.bAnselSessionWantDeactivate = true →
      p.1.ans.bAnselSessionActive = true ∧
      p.1.ans.bAnselSessionNewlyActive = false) ∧
    (p.2 = true →
      p.1.ans.bAnselSessionActive = true ∧
      p.1.ans.bAnselSessionWantDeactivate = false) := by
  induction h with
  | init E lg => exact ⟨by simp, by simp⟩
  | startCb s settings h hteardown ih =>
      unfold anselStartSessionCallback
      split
      · dsimp only
        refine ⟨?_, ?_⟩
        · intro hh
          have hh' : s.ans.bAnselSessionWantDeactivate = true := hh
          rw [hteardown] at hh'
          exact Bool.noConfusion hh'
        · intro _
          exact ⟨rfl, hteardown⟩
      · dsimp only
        refine ⟨ih.1, ?_⟩
        intro hb
        simp at hb
  | stopCb s h ih =>
      rcases ih.2 rfl with ⟨hac, hwd⟩
      unfold anselStopSessionCallback
      split
      · refine ⟨?_, ?_⟩
        · intro hh
          have hh' : s.ans.bAnselSessionWantDeactivate = true := hh
          rw [hwd] at hh'
          exact Bool.noConfusion hh'
        · intro hb
          exact Bool.noConfusion hb
      · rename_i hcond
        refine ⟨?_, ?_⟩
        · intro _
          refine ⟨hac, ?_⟩
          show s.ans.bAnselSessionNewlyActive = false
          cases hny : s.ans.bAnselSessionNewlyActive
          · rfl
          · exact absurd (by rw [hac, hny]; rfl : (s.ans.bAnselSessionActive &&
              s.ans.bAnselSessionNewlyActive) = true) hcond
        · intro hb
          exact Bool.noConfusion hb
  | step s b op h ih =>
      cases op with
      | frame ctx =>
          by_cases ha : s.ans.bAnselSessionActive = true
          · by_cases hw : s.ans.bAnselSessionWantDeactivate = true
            · rw [show applyOp s (SessionOp.frame ctx) = (updateCamera ctx s).1
                from rfl, updateCamera_deactivateFrame ctx s ha hw]
              refine ⟨?_, ?_⟩
              · intro hh
                exact Bool.noConfusion hh
              · intro hb
                rcases ih.2 hb with ⟨_, hwd⟩
                rw [hw] at hwd
                exact Bool.noConfusion hwd
            · have hw' : s.ans.bAnselSessionWantDeactivate = false := by
                cases hx : s.ans.bAnselSessionWantDeactivate
                · rfl
                · exact absurd hx hw
              by_cases hn : s.ans.bAnselSessionNewlyActive = true
              · rw [show applyOp s (SessionOp.frame ctx) = (updateCamera ctx s).1
                  from rfl, updateCamera_startFrame ctx s ha hn hw']
                obtain ⟨f1, f2, f3⟩ := maybePauseAtFrame2_flags
                  (sessionStartBranch ctx
                    { s with ans := { s.ans with
                        bForceDisallow := false,
                        numFramesSinceSessionStart :=
                          s.ans.numFramesSinceSessionStart + 1,
                        bAnselCaptureNewlyActive := false,
                        bAnselCaptureNewlyFinished := false,
                        bCameraIsInOriginalState := false } })
                obtain ⟨g1, g2, g3⟩ := sessionStartBranch_flags ctx
                  { s with ans := { s.ans with
                      bForceDisallow := false,
                      numFramesSinceSessionStart :=
                        s.ans.numFramesSinceSessionStart + 1,
                      bAnselCaptureNewlyActive := false,
                      bAnselCaptureNewlyFinished := false,
                      bCameraIsInOriginalState := false } }
                refine ⟨?_, ?_⟩
                · intro hh
                  rw [f3, g3] at hh
                  have hh' : s.ans.bAnselSessionWantDeactivate = true := hh
                  rw [hw'] at hh'
                  exact Bool.noConfusion hh'
                · intro _
                  rw [f1, g1, f3, g3]
                  exact ⟨ha, hw'⟩
              · have hn' : s.ans.bAnselSessionNewlyActive = false := by
                  cases hx : s.ans.bAnselSessionNewlyActive
                  · rfl
                  · exact absurd hx hn
                rw [show applyOp s (SessionOp.frame ctx) = (updateCamera ctx s).1
                  from rfl, updateCamera_midSession ctx s ha hn' hw']
                obtain ⟨f1, f2, f3⟩ := maybePauseAtFrame2_flags
                  { s with ans := { s.ans with
                      bForceDisallow := false,
                      numFramesSinceSessionStart :=
                        s.ans.numFramesSinceSessionStart + 1,
                      bAnselCaptureNewlyActive := false,
                      bAnselCaptureNewlyFinished := false,
                      bCameraIsInOriginalState :=
                        if s.ans.bAnselCaptureActive = false
                        then ctx.blueprintCameraInOriginal else false } }
                refine ⟨?_, ?_⟩
                · intro hh
                  rw [f3] at hh
                  have : s.ans.bAnselSessionWantDeactivate = true := hh
                  rw [hw'] at this
                  exact Bool.noConfusion this
                · intro hb
                  rw [f1, f3]
                  exact ⟨ha, hw'⟩
          · have ha' : s.ans.bAnselSessionActive = false := by
              cases hx : s.ans.bAnselSessionActive
              · rfl
              · exact absurd hx ha
            rw [show applyOp s (SessionOp.frame ctx) = (updateCamera ctx s).1
              from rfl, updateCamera_inactive ctx s ha']
            refine ⟨?_, ?_⟩
            · intro hh
              exact ih.1 hh
            · intro hb
              exact ih.2 hb
      | postProcess ui pp =>
          rw [show applyOp s (SessionOp.postProcess ui pp) =
            (updatePostProcessing ui s pp).1 from rfl]
          unfold updatePostProcessing
          split
          · dsimp only
            have hc := configure_cores (doCustomUIControlsEffect ui s) pp
            have h1 : (configureRenderingSettingsForPhotography
                (doCustomUIControlsEffect ui s) pp).1.ans.bAnselSessionActive =
                s.ans.bAnselSessionActive :=
              congrArg (fun t => t.1) hc.1
            have h2 : (configureRenderingSettingsForPhotography
                (doCustomUIControlsEffect ui s) pp).1.ans.bAnselSessionNewlyActive =
                s.ans.bAnselSessionNewlyActive :=
              congrArg (fun t => t.2.1) hc.1
            have h3 : (configureRenderingSettingsForPhotography
                (doCustomUIControlsEffect ui s) pp).1.ans.bAnselSessionWantDeactivate =
                s.ans.bAnselSessionWantDeactivate :=
              congrArg (fun t => t.2.2.1) hc.1
            refine ⟨?_, ?_⟩
            · intro hh
              rw [h3] at hh
              rcases ih.1 hh with ⟨x1, x2⟩
              exact ⟨h1.trans x1, h2.trans x2⟩
            · intro hb
              rcases ih.2 hb with ⟨x1, x2⟩
              exact ⟨h1.trans x1, h3.trans x2⟩
          · exact ih
      | captureStart ct => exact ih
      | captureStop => exact ih
      | changeQuality q => exact ih

/-- C9: when the SDK's stop-session callback arrives while the session is
active but still newly active (the per-frame update has not yet acted on
the session start), the callback drops the session by clearing only
`bAnselSessionActive`, without setting `bAnselSessionWantDeactivate`, so
the session-end restoration never runs for it; in every other state it
only sets `bAnselSessionWantDeactivate`.  Consequently, in every
SDK-contract-respecting execution, a pending deactivation (the only thing
that triggers the restore path) exists only when the session is active
and its start path has already executed. -/
theorem stop_callback_drop_vs_deactivate (s : GState) (p : GState × Bool) :
    (s.ans.bAnselSessionActive = true → s.ans.bAnselSessionNewlyActive = true →
      anselStopSessionCallback s =
        { s with ans := { s.ans with bAnselSessionActive := false } }) ∧
    ((s.ans.bAnselSessionActive && s.ans.bAnselSessionNewlyActive) = false →
      anselStopSessionCallback s =
        { s with ans := { s.ans with bAnselSessionWantDeactivate := true } }) ∧
    (ReachAnsel p → p.1.ans.bAnselSessionWantDeactivate = true →
      p.1.ans.bAnselSessionActive = true ∧
      p.1.ans.bAnselSessionNewlyActive = false) := by
  refine ⟨?_, ?_, ?_⟩
  · intro h1 h2
    unfold anselStopSessionCallback
    rw [if_pos (by rw [h1, h2]; rfl)]
  · intro h
    unfold anselStopSessionCallback
    rw [if_neg (by rw [h]; exact Bool.noConfusion)]
  · intro hr hw
    exact (reachAnsel_invariant p hr).1 hw

theorem stop_callback_drop_vs_deactivate_witness :
    (anselStopSessionCallback
      ⟨{ cvars := [], paused := false, timeDilation := 1,
         cameraMovableWhenPaused := false, screenMessagesEnabled := false,
         hudExists := false, showingHUD := false, subtitlesEnabled := false,
         fadingEnabled := false },
       { bAnselSessionActive := true, bAnselSessionNewlyActive := true },
       []⟩).ans.bAnselSessionActive = false ∧
    (anselStopSessionCallback
      ⟨{ cvars := [], paused := false, timeDilation := 1,
         cameraMovableWhenPaused := false, screenMessagesEnabled := false,
         hudExists := false, showingHUD := false, subtitlesEnabled := false,
         fadingEnabled := false },
       { bAnselSessionActive := true }, []⟩).ans.bAnselSessionWantDeactivate =
      true ∧
    ((anselStopSessionCallback (applyOp
        (anselStartSessionCallback false {}
          ⟨{ cvars := [], paused := false, timeDilation := 1,
             cameraMovableWhenPaused := false, screenMessagesEnabled := false,
             hudExists := false, showingHUD := false, subtitlesEnabled := false,
             fadingEnabled := false }, {}, []⟩).2.1
        (SessionOp.frame {}))).ans.bAnselSessionActive = true ∧
     (anselStopSessionCallback (applyOp
        (anselStartSessionCallback false {}
          ⟨{ cvars := [], paused := false, timeDilation := 1,
             cameraMovableWhenPaused := false, screenMessagesEnabled := false,
             hudExists := false, showingHUD := false, subtitlesEnabled := false,
             fadingEnabled := false }, {}, []⟩).2.1
        (SessionOp.frame {}))).ans.bAnselSessionNewlyActive = false) := by
  refine ⟨?_, ?_, ?_⟩
  · exact congrArg (fun t => t.ans.bAnselSessionActive)
      ((stop_callback_drop_vs_deactivate
        ⟨{ cvars := [], paused := false, timeDilation := 1,
           cameraMovableWhenPaused := false, screenMessagesEnabled := false,
           hudExists := false, showingHUD := false, subtitlesEnabled := false,
           fadingEnabled := false },
         { bAnselSessionActive := true, bAnselSessionNewlyActive := true },
         []⟩
        (⟨{ cvars := [], paused := false, timeDilation := 1,
            cameraMovableWhenPaused := false, screenMessagesEnabled := false,
            hudExists := false, showingHUD := false, subtitlesEnabled := false,
            fadingEnabled := false }, {}, []⟩, false)).1 rfl rfl)
  · exact congrArg (fun t => t.ans.bAnselSessionWantDeactivate)
      ((stop_callback_drop_vs_deactivate
        ⟨{ cvars := [], paused := false, timeDilation := 1,
           cameraMovableWhenPaused := false, screenMessagesEnabled := false,
           hudExists := false, showingHUD := false, subtitlesEnabled := false,
           fadingEnabled := false },
         { bAnselSessionActive := true }, []⟩
        (⟨{ cvars := [], paused := false, timeDilation := 1,
            cameraMovableWhenPaused := false, screenMessagesEnabled := false,
            hudExists := false, showingHUD := false, subtitlesEnabled := false,
            fadingEnabled := false }, {}, []⟩, false)).2.1 (by decide))
  · have h0 : ReachAnsel
        (⟨{ cvars := [], paused := false, timeDilation := 1,
            cameraMovableWhenPaused := false, screenMessagesEnabled := false,
            hudExists := false, showingHUD := false, subtitlesEnabled := false,
            fadingEnabled := false }, {}, []⟩, false) :=
      ReachAnsel.init _ []
    have h1 : ReachAnsel
        ((anselStartSessionCallback false {}
          ⟨{ cvars := [], paused := false, timeDilation := 1,
             cameraMovableWhenPaused := false, screenMessagesEnabled := false,
             hudExists := false, showingHUD := false, subtitlesEnabled := false,
             fadingEnabled := false }, {}, []⟩).2.1, true) :=
      ReachAnsel.startCb _ {} h0 rfl
    have h2 := ReachAnsel.step _ true (SessionOp.frame {}) h1
    have h3 := ReachAnsel.stopCb _ h2
    exact (stop_callback_drop_vs_deactivate
      ⟨{ cvars := [], paused := false, timeDilation := 1,
         cameraMovableWhenPaused := false, screenMessagesEnabled := false,
         hudExists := false, showingHUD := false, subtitlesEnabled := false,
         fadingEnabled := false }, {}, []⟩
      (anselStopSessionCallback (applyOp
        (anselStartSessionCallback false {}
          ⟨{ cvars := [], paused := false, timeDilation := 1,
             cameraMovableWhenPaused := false, screenMessagesEnabled := false,
             hudExists := false, showingHUD := false, subtitlesEnabled := false,
             fadingEnabled := false }, {}, []⟩).2.1
        (SessionOp.frame {})), false)).2.2 h3 (by decide)

/-- C10: a photography session is never allowed to start during
split-screen, stereoscopic rendering, with `r.Photography.Allow` 0, or in
the editor.  (i) On a frame outside a session `UpdateCamera` recomputes
`bForceDisallow` from the splitscreen/stereoscopic checks and refreshes
`bIsOrthoProjection` from the incoming view.  (ii) The start callback
answers `kDisallowed` and leaves both the state and the session
configuration untouched whenever `bForceDisallow` is set, the allow CVar
is 0, or `GIsEditor` holds.  (iii) Otherwise it answers `kAllowed`,
activates the session, permits FOV change iff the projection is not
orthographic, and sets the highres/360-mono/360-stereo permissions all
equal to the `r.Photography.EnableMultipart` flag. -/
theorem session_start_gating (gIsEditor : Bool) (ctx : FrameCtx)
    (settings : SessionSettings) (s : GState) :
    (s.ans.bAnselSessionActive = false →
      (updateCamera ctx s).1.ans.bForceDisallow =
        (ctx.splitscreen || ctx.stereoscopic) ∧
      (updateCamera ctx s).1.ans.bIsOrthoProjection = ctx.orthoProjection) ∧
    (s.ans.bForceDisallow = true ∨
     getCVarD s.eng.cvars "r.Photography.Allow" 1 = 0 ∨ gIsEditor = true →
      anselStartSessionCallback gIsEditor settings s =
        (settings, s, .kDisallowed)) ∧
    (s.ans.bForceDisallow = false →
     getCVarD s.eng.cvars "r.Photography.Allow" 1 ≠ 0 → gIsEditor = false →
      anselStartSessionCallback gIsEditor settings s =
        ({ settings with
            isTranslationAllowed := true,
            isFovChangeAllowed := !s.ans.bIsOrthoProjection,
            isRotationAllowed := true,
            isPauseAllowed := true,
            isHighresAllowed :=
              decide (getCVarD s.eng.cvars "r.Photography.EnableMultipart" 1 ≠ 0),
            is360MonoAllowed :=
              decide (getCVarD s.eng.cvars "r.Photography.EnableMultipart" 1 ≠ 0),
            is360StereoAllowed :=
              decide (getCVarD s.eng.cvars "r.Photography.EnableMultipart" 1 ≠ 0) },
         { s with ans := { s.ans with
             bAnselSessionActive := true,
             bAnselSessionNewlyActive := true,
             bHighQualityModeDesired := false } },
         .kAllowed)) := by
  refine ⟨?_, ?_, ?_⟩
  · intro h
    rw [updateCamera_inactive ctx s h]
    exact ⟨rfl, rfl⟩
  · intro h
    unfold anselStartSessionCallback
    rw [if_neg]
    rintro ⟨c1, c2, c3⟩
    rcases h with h | h | h
    · rw [h] at c1
      exact Bool.noConfusion c1
    · exact c2 h
    · rw [h] at c3
      exact Bool.noConfusion c3
  · intro h1 h2 h3
    unfold anselStartSessionCallback
    rw [if_pos ⟨h1, h2, h3⟩]

theorem session_start_gating_witness :
    ((updateCamera { splitscreen := true }
      ⟨{ cvars := [], paused := false, timeDilation := 1,
         cameraMovableWhenPaused := false, screenMessagesEnabled := false,
         hudExists := false, showingHUD := false, subtitlesEnabled := false,
         fadingEnabled := false }, {}, []⟩).1.ans.bForceDisallow = true ∧
     (updateCamera { splitscreen := true }
      ⟨{ cvars := [], paused := false, timeDilation := 1,
         cameraMovableWhenPaused := false, screenMessagesEnabled := false,
         hudExists := false, showingHUD := false, subtitlesEnabled := false,
         fadingEnabled := false }, {}, []⟩).1.ans.bIsOrthoProjection = false) ∧
    (anselStartSessionCallback false {}
      ⟨{ cvars := [], paused := false, timeDilation := 1,
         cameraMovableWhenPaused := false, screenMessagesEnabled := false,
         hudExists := false, showingHUD := false, subtitlesEnabled := false,
         fadingEnabled := false }, { bForceDisallow := true }, []⟩ =
      ({},
       ⟨{ cvars := [], paused := false, timeDilation := 1,
          cameraMovableWhenPaused := false, screenMessagesEnabled := false,
          hudExists := false, showingHUD := false, subtitlesEnabled := false,
          fadingEnabled := false }, { bForceDisallow := true }, []⟩,
       .kDisallowed)) ∧
    (anselStartSessionCallback false {}
      ⟨{ cvars := [], paused := false, timeDilation := 1,
         cameraMovableWhenPaused := false, screenMessagesEnabled := false,
         hudExists := false, showingHUD := false, subtitlesEnabled := false,
         fadingEnabled := false }, {}, []⟩ =
      ({ isTranslationAllowed := true, isFovChangeAllowed := true,
         isRotationAllowed := true, isPauseAllowed := true,
         isHighresAllowed := true, is360MonoAllowed := true,
         is360StereoAllowed := true },
       ⟨{ cvars := [], paused := false, timeDilation := 1,
          cameraMovableWhenPaused := false, screenMessagesEnabled := false,
          hudExists := false, showingHUD := false, subtitlesEnabled := false,
          fadingEnabled := false },
        { bAnselSessionActive := true, bAnselSessionNewlyActive := true },
        []⟩,
       .kAllowed)) := by
  refine ⟨?_, ?_, ?_⟩
  · exact (session_start_gating false { splitscreen := true } {}
      ⟨{ cvars := [], paused := false, timeDilation := 1,
         cameraMovableWhenPaused := false, screenMessagesEnabled := false,
         hudExists := false, showingHUD := false, subtitlesEnabled := false,
         fadingEnabled := false }, {}, []⟩).1 rfl
  · exact (session_start_gating false {} {}
      ⟨{ cvars := [], paused := false, timeDilation := 1,
         cameraMovableWhenPaused := false, screenMessagesEnabled := false,
         hudExists := false, showingHUD := false, subtitlesEnabled := false,
         fadingEnabled := false }, { bForceDisallow := true }, []⟩).2.1
      (Or.inl rfl)
  · exact (session_start_gating false {} {}
      ⟨{ cvars := [], paused := false, timeDilation := 1,
         cameraMovableWhenPaused := false, screenMessagesEnabled := false,
         hudExists := false, showingHUD := false, subtitlesEnabled := false,
         fadingEnabled := false }, {}, []⟩).2.2 rfl (by decide) rfl

/-! ### Capture-flag bookkeeping through the quality blocks (for C7) -/

theorem sccp_capture (s : GState) (name : String) (val : ℚ)
    (cmp : ℚ → ℚ → Bool) (wr prio : Bool) :
    (setCapturedCVarPredicated s name val cmp wr prio).ans.bAnselCaptureActive =
      s.ans.bAnselCaptureActive ∧
    (setCapturedCVarPredicated s name val cmp wr prio).ans.captureType =
      s.ans.captureType ∧
    (setCapturedCVarPredicated s name val cmp wr prio).ans.bAutoPostprocess =
      s.ans.bAutoPostprocess := by
  have h := (setCapturedCVarPredicated_full s name val cmp wr prio).1
  refine ⟨?_, ?_, ?_⟩
  · have g := congrArg AnselState.bAnselCaptureActive h
    exact g
  · have g := congrArg AnselState.captureType h
    exact g
  · have g := congrArg AnselState.bAutoPostprocess h
    exact g

theorem applyQList_capture (wr : Bool) (l : List QEntry) :
    ∀ s : GState,
      (applyQList s wr l).ans.bAnselCaptureActive = s.ans.bAnselCaptureActive ∧
      (applyQList s wr l).ans.captureType = s.ans.captureType ∧
      (applyQList s wr l).ans.bAutoPostprocess = s.ans.bAutoPostprocess := by
  induction l with
  | nil => intro s; exact ⟨rfl, rfl, rfl⟩
  | cons e rest ih =>
      intro s
      have h1 := sccp_capture s e.name e.val (cmpFun e.cmp) wr e.useExistingPriority
      have h2 := ih (applyQEntry wr s e)
      exact ⟨h2.1.trans h1.1, h2.2.1.trans h1.2.1, h2.2.2.trans h1.2.2⟩

theorem lodBlock_capture (s : GState) :
    (lodBlock s).ans.bAnselCaptureActive = s.ans.bAnselCaptureActive ∧
    (lodBlock s).ans.captureType = s.ans.captureType ∧
    (lodBlock s).ans.bAutoPostprocess = s.ans.bAutoPostprocess := by
  unfold lodBlock
  split
  · have hb := applyQList_capture (!s.ans.bHighLodDesired) lodCVarList s
    generalize applyQList s (!s.ans.bHighLodDesired) lodCVarList = X at hb ⊢
    exact hb
  · exact ⟨rfl, rfl, rfl⟩

theorem lumenBlock_capture (s : GState) :
    (lumenBlock s).ans.bAnselCaptureActive = s.ans.bAnselCaptureActive ∧
    (lumenBlock s).ans.captureType = s.ans.captureType ∧
    (lumenBlock s).ans.bAutoPostprocess = s.ans.bAutoPostprocess := by
  unfold lumenBlock
  split
  · have hb := applyQList_capture (!s.ans.bHighLumenDesired) lumenCVarList s
    generalize applyQList s (!s.ans.bHighLumenDesired) lumenCVarList = X at hb ⊢
    exact hb
  · exact ⟨rfl, rfl, rfl⟩

theorem skylightBlock_capture (s : GState) :
    (skylightBlock s).ans.bAnselCaptureActive = s.ans.bAnselCaptureActive ∧
    (skylightBlock s).ans.captureType = s.ans.captureType ∧
    (skylightBlock s).ans.bAutoPostprocess = s.ans.bAutoPostprocess := by
  unfold skylightBlock
  split
  · have hb := applyQList_capture (!s.ans.bHighSkyLightDesired) skylightCVarList s
    generalize applyQList s (!s.ans.bHighSkyLightDesired) skylightCVarList = X at hb ⊢
    exact hb
  · exact ⟨rfl, rfl, rfl⟩

theorem sgQualityBlock_capture (s : GState) :
    (sgQualityBlock s).ans.bAnselCaptureActive = s.ans.bAnselCaptureActive ∧
    (sgQualityBlock s).ans.captureType = s.ans.captureType ∧
    (sgQualityBlock s).ans.bAutoPostprocess = s.ans.bAutoPostprocess := by
  unfold sgQualityBlock
  split
  · have hb := applyQList_capture (!s.ans.bHighSgQualityDesired) sgQualityCVarList s
    generalize applyQList s (!s.ans.bHighSgQualityDesired) sgQualityCVarList = X at hb ⊢
    exact hb
  · exact ⟨rfl, rfl, rfl⟩

theorem antiAliasingBlock_capture (s : GState) :
    (antiAliasingBlock s).ans.bAnselCaptureActive = s.ans.bAnselCaptureActive ∧
    (antiAliasingBlock s).ans.captureType = s.ans.captureType ∧
    (antiAliasingBlock s).ans.bAutoPostprocess = s.ans.bAutoPostprocess := by
  unfold antiAliasingBlock
  split
  · have hb := applyQList_capture (!s.ans.bHighAntiAliasingDesired) antiAliasingCVarList s
    generalize applyQList s (!s.ans.bHighAntiAliasingDesired) antiAliasingCVarList = X at hb ⊢
    exact hb
  · exact ⟨rfl, rfl, rfl⟩

theorem highQualityRTPart_capture (wr : Bool) (s : GState) :
    (highQualityRTPart wr s).ans.bAnselCaptureActive = s.ans.bAnselCaptureActive ∧
    (highQualityRTPart wr s).ans.captureType = s.ans.captureType ∧
    (highQualityRTPart wr s).ans.bAutoPostprocess = s.ans.bAutoPostprocess := by
  unfold highQualityRTPart
  split
  · have hb := applyQList_capture wr qualityRTCVarList s
    generalize applyQList s wr qualityRTCVarList = X at hb ⊢
    exact hb
  · exact ⟨rfl, rfl, rfl⟩

theorem extremeRTPart_capture (wr : Bool) (s : GState) :
    (extremeRTPart wr s).ans.bAnselCaptureActive = s.ans.bAnselCaptureActive ∧
    (extremeRTPart wr s).ans.captureType = s.ans.captureType ∧
    (extremeRTPart wr s).ans.bAutoPostprocess = s.ans.bAutoPostprocess := by
  unfold extremeRTPart
  split
  · have hb := applyQList_capture wr extremeRTCVarList s
    generalize applyQList s wr extremeRTCVarList = X at hb ⊢
    exact hb
  · exact ⟨rfl, rfl, rfl⟩

theorem extremePart_capture (wr : Bool) (s : GState) :
    (extremePart wr s).ans.bAnselCaptureActive = s.ans.bAnselCaptureActive ∧
    (extremePart wr s).ans.captureType = s.ans.captureType ∧
    (extremePart wr s).ans.bAutoPostprocess = s.ans.bAutoPostprocess := by
  unfold extremePart
  split
  · have h1 := applyQList_capture wr extremeCVarList s
    have h2 := extremeRTPart_capture wr (applyQList s wr extremeCVarList)
    have h3 := applyQList_capture wr extremeTailCVarList
      (extremeRTPart wr (applyQList s wr extremeCVarList))
    exact ⟨h3.1.trans (h2.1.trans h1.1), h3.2.1.trans (h2.2.1.trans h1.2.1),
           h3.2.2.trans (h2.2.2.trans h1.2.2)⟩
  · exact ⟨rfl, rfl, rfl⟩

theorem highQualityBlock_capture (s : GState) :
    (highQualityBlock s).ans.bAnselCaptureActive = s.ans.bAnselCaptureActive ∧
    (highQualityBlock s).ans.captureType = s.ans.captureType ∧
    (highQualityBlock s).ans.bAutoPostprocess = s.ans.bAutoPostprocess := by
  unfold highQualityBlock
  split
  · dsimp only
    have h1 := applyQList_capture (!s.ans.bHighQualityModeDesired) qualityMainCVarList s
    have h2 := highQualityRTPart_capture (!s.ans.bHighQualityModeDesired)
      (applyQList s (!s.ans.bHighQualityModeDesired) qualityMainCVarList)
    have h3 := extremePart_capture (!s.ans.bHighQualityModeDesired)
      (highQualityRTPart (!s.ans.bHighQualityModeDesired)
        (applyQList s (!s.ans.bHighQualityModeDesired) qualityMainCVarList))
    have hb : (extremePart (!s.ans.bHighQualityModeDesired)
        (highQualityRTPart (!s.ans.bHighQualityModeDesired)
          (applyQList s (!s.ans.bHighQualityModeDesired) qualityMainCVarList))).ans.bAnselCaptureActive =
          s.ans.bAnselCaptureActive ∧
        (extremePart (!s.ans.bHighQualityModeDesired)
          (highQualityRTPart (!s.ans.bHighQualityModeDesired)
            (applyQList s (!s.ans.bHighQualityModeDesired) qualityMainCVarList))).ans.captureType =
          s.ans.captureType ∧
        (extremePart (!s.ans.bHighQualityModeDesired)
          (highQualityRTPart (!s.ans.bHighQualityModeDesired)
            (applyQList s (!s.ans.bHighQualityModeDesired) qualityMainCVarList))).ans.bAutoPostprocess =
          s.ans.bAutoPostprocess :=
      ⟨h3.1.trans (h2.1.trans h1.1), h3.2.1.trans (h2.2.1.trans h1.2.1),
       h3.2.2.trans (h2.2.2.trans h1.2.2)⟩
    generalize extremePart (!s.ans.bHighQualityModeDesired)
      (highQualityRTPart (!s.ans.bHighQualityModeDesired)
        (applyQList s (!s.ans.bHighQualityModeDesired) qualityMainCVarList)) = X
      at hb ⊢
    exact hb
  · exact ⟨rfl, rfl, rfl⟩

theorem cppo_congr (a b : AnselState) (pp : PPSettings)
    (h : a.captureType = b.captureType) :
    capturePostProcessOverrides a pp = capturePostProcessOverrides b pp := by
  unfold capturePostProcessOverrides
  rw [h]

theorem configure_snd (s : GState) (pp : PPSettings)
    (hcap : s.ans.bAnselCaptureActive = true)
    (happ : s.ans.bAutoPostprocess = true) :
    (configureRenderingSettingsForPhotography s pp).2 =
      capturePostProcessOverrides s.ans pp := by
  have c1 := lodBlock_capture s
  have c2 := lumenBlock_capture (lodBlock s)
  have c3 := skylightBlock_capture (lumenBlock (lodBlock s))
  have c4 := sgQualityBlock_capture (skylightBlock (lumenBlock (lodBlock s)))
  have c5 := antiAliasingBlock_capture (sgQualityBlock (skylightBlock (lumenBlock (lodBlock s))))
  have c6 := highQualityBlock_capture (antiAliasingBlock (sgQualityBlock (skylightBlock
    (lumenBlock (lodBlock s)))))
  have h6 : (highQualityBlock (antiAliasingBlock (sgQualityBlock (skylightBlock
      (lumenBlock (lodBlock s)))))).ans.bAnselCaptureActive =
        s.ans.bAnselCaptureActive ∧
      (highQualityBlock (antiAliasingBlock (sgQualityBlock (skylightBlock
        (lumenBlock (lodBlock s)))))).ans.captureType = s.ans.captureType ∧
      (highQualityBlock (antiAliasingBlock (sgQualityBlock (skylightBlock
        (lumenBlock (lodBlock s)))))).ans.bAutoPostprocess =
        s.ans.bAutoPostprocess :=
    ⟨c6.1.trans (c5.1.trans (c4.1.trans (c3.1.trans (c2.1.trans c1.1)))),
     c6.2.1.trans (c5.2.1.trans (c4.2.1.trans (c3.2.1.trans (c2.2.1.trans c1.2.1)))),
     c6.2.2.trans (c5.2.2.trans (c4.2.2.trans (c3.2.2.trans (c2.2.2.trans c1.2.2))))⟩
  unfold configureRenderingSettingsForPhotography
  dsimp only
  generalize highQualityBlock (antiAliasingBlock (sgQualityBlock
      (skylightBlock (lumenBlock (lodBlock s))))) = X at h6 ⊢
  rw [if_pos (h6.1.trans hcap)]
  have d1 := sccp_capture X "r.disablelodfade" 1 (fun _ _ => true) false false
  have d2 := sccp_capture (setCapturedCVar X "r.disablelodfade" 1)
    "r.streaming.framesforfullupdate" 1 (fun _ _ => true) false false
  have d3 := sccp_capture
    (setCapturedCVar (setCapturedCVar X "r.disablelodfade" 1)
      "r.streaming.framesforfullupdate" 1)
    "r.Streaming.MaxNumTexturesToStreamPerFrame" 0 (fun _ _ => true) false false
  have d4 := sccp_capture
    (setCapturedCVar (setCapturedCVar (setCapturedCVar X "r.disablelodfade" 1)
      "r.streaming.framesforfullupdate" 1)
      "r.Streaming.MaxNumTexturesToStreamPerFrame" 0)
    "r.streaming.numstaticcomponentsprocessedperframe" 0 (fun _ _ => true) false false
  have hpp : (setCapturedCVar (setCapturedCVar (setCapturedCVar
      (setCapturedCVar X "r.disablelodfade" 1) "r.streaming.framesforfullupdate" 1)
      "r.Streaming.MaxNumTexturesToStreamPerFrame" 0)
      "r.streaming.numstaticcomponentsprocessedperframe" 0).ans.bAutoPostprocess = true :=
    d4.2.2.trans (d3.2.2.trans (d2.2.2.trans (d1.2.2.trans (h6.2.2.trans happ))))
  have hct : (setCapturedCVar (setCapturedCVar (setCapturedCVar
      (setCapturedCVar X "r.disablelodfade" 1) "r.streaming.framesforfullupdate" 1)
      "r.Streaming.MaxNumTexturesToStreamPerFrame" 0)
      "r.streaming.numstaticcomponentsprocessedperframe" 0).ans.captureType =
      s.ans.captureType :=
    d4.2.1.trans (d3.2.1.trans (d2.2.1.trans (d1.2.1.trans h6.2.1)))
  generalize setCapturedCVar (setCapturedCVar (setCapturedCVar
      (setCapturedCVar X "r.disablelodfade" 1) "r.streaming.framesforfullupdate" 1)
      "r.Streaming.MaxNumTexturesToStreamPerFrame" 0)
      "r.streaming.numstaticcomponentsprocessedperframe" 0 = Y at hpp hct ⊢
  rw [if_pos hpp]
  exact cppo_congr Y.ans s.ans pp hct

/-- C7: during an active multi-part capture with auto-postprocess enabled,
`UpdatePostProcessing` hands the settings to the capture override block;
that block sets the override flags and zeroes MotionBlurAmount,
BloomDirtMaskIntensity, LensFlareIntensity, VignetteIntensity and
SceneFringeIntensity; raises ScreenPercentage_DEPRECATED to 100 exactly
when it was below 100 (otherwise value and flag are untouched); zeroes
the depth-of-field blur parameters (and sets DepthOfFieldVignetteSize to
the no-effect value 200) exactly for stereo/360-stereo captures; and
zeroes ScreenSpaceReflectionIntensity exactly for every capture type
other than super-resolution. -/
theorem capture_postprocess_overrides (ui : UICtx) (s : GState)
    (pp : PPSettings)
    (hsess : s.ans.bAnselSessionActive = true)
    (hcap : s.ans.bAnselCaptureActive = true)
    (happ : s.ans.bAutoPostprocess = true) :
    (updatePostProcessing ui s pp).2 = capturePostProcessOverrides s.ans pp ∧
    ∀ (a : AnselState) (q : PPSettings),
      (capturePostProcessOverrides a q).bOverride_MotionBlurAmount = true ∧
      (capturePostProcessOverrides a q).MotionBlurAmount = 0 ∧
      (capturePostProcessOverrides a q).bOverride_BloomDirtMaskIntensity = true ∧
      (capturePostProcessOverrides a q).BloomDirtMaskIntensity = 0 ∧
      (capturePostProcessOverrides a q).bOverride_LensFlareIntensity = true ∧
      (capturePostProcessOverrides a q).LensFlareIntensity = 0 ∧
      (capturePostProcessOverrides a q).bOverride_VignetteIntensity = true ∧
      (capturePostProcessOverrides a q).VignetteIntensity = 0 ∧
      (capturePostProcessOverrides a q).bOverride_SceneFringeIntensity = true ∧
      (capturePostProcessOverrides a q).SceneFringeIntensity = 0 ∧
      (capturePostProcessOverrides a q).ScreenPercentage_DEPRECATED =
        (if q.ScreenPercentage_DEPRECATED < 100 then 100
         else q.ScreenPercentage_DEPRECATED) ∧
      (capturePostProcessOverrides a q).bOverride_ScreenPercentage_DEPRECATED =
        (if q.ScreenPercentage_DEPRECATED < 100 then true
         else q.bOverride_ScreenPercentage_DEPRECATED) ∧
      (capturePostProcessOverrides a q).DepthOfFieldScale =
        (if a.captureType = .s360Stereo ∨ a.captureType = .stereo then 0
         else q.DepthOfFieldScale) ∧
      (capturePostProcessOverrides a q).bOverride_DepthOfFieldScale =
        (if a.captureType = .s360Stereo ∨ a.captureType = .stereo then true
         else q.bOverride_DepthOfFieldScale) ∧
      (capturePostProcessOverrides a q).DepthOfFieldNearBlurSize =
        (if a.captureType = .s360Stereo ∨ a.captureType = .stereo then 0
         else q.DepthOfFieldNearBlurSize) ∧
      (capturePostProcessOverrides a q).DepthOfFieldFarBlurSize =
        (if a.captureType = .s360Stereo ∨ a.captureType = .stereo then 0
         else q.DepthOfFieldFarBlurSize) ∧
      (capturePostProcessOverrides a q).DepthOfFieldDepthBlurRadius =
        (if a.captureType = .s360Stereo ∨ a.captureType = .stereo then 0
         else q.DepthOfFieldDepthBlurRadius) ∧
      (capturePostProcessOverrides a q).DepthOfFieldVignetteSize =
        (if a.captureType = .s360Stereo ∨ a.captureType = .stereo then 200
         else q.DepthOfFieldVignetteSize) ∧
      (capturePostProcessOverrides a q).ScreenSpaceReflectionIntensity =
        (if ¬a.captureType = .superResolution then 0
         else q.ScreenSpaceReflectionIntensity) ∧
      (capturePostProcessOverrides a q).bOverride_ScreenSpaceReflectionIntensity =
        (if ¬a.captureType = .superResolution then true
         else q.bOverride_ScreenSpaceReflectionIntensity) := by
  refine ⟨?_, ?_⟩
  · unfold updatePostProcessing
    rw [if_pos hsess]
    exact (configure_snd (doCustomUIControlsEffect ui s) pp hcap happ).trans
      (cppo_congr (doCustomUIControlsEffect ui s).ans s.ans pp rfl)
  · intro a q
    unfold capturePostProcessOverrides
    dsimp only
    split_ifs <;>
      exact ⟨rfl, rfl, rfl, rfl, rfl, rfl, rfl, rfl, rfl, rfl, rfl, rfl, rfl,
        rfl, rfl, rfl, rfl, rfl, rfl, rfl⟩

theorem capture_postprocess_overrides_witness :
    (updatePostProcessing {}
      ⟨{ cvars := [], paused := false, timeDilation := 1,
         cameraMovableWhenPaused := false, screenMessagesEnabled := false,
         hudExists := false, showingHUD := false, subtitlesEnabled := false,
         fadingEnabled := false },
       { bAnselSessionActive := true, bAnselCaptureActive := true,
         bAutoPostprocess := true }, []⟩ {}).2 =
      capturePostProcessOverrides
        ({ bAnselSessionActive := true, bAnselCaptureActive := true,
           bAutoPostprocess := true } : AnselState) {} ∧
    (capturePostProcessOverrides
      ({ captureType := .stereo } : AnselState) {}).MotionBlurAmount = 0 := by
  have h := capture_postprocess_overrides {}
    ⟨{ cvars := [], paused := false, timeDilation := 1,
       cameraMovableWhenPaused := false, screenMessagesEnabled := false,
       hudExists := false, showingHUD := false, subtitlesEnabled := false,
       fadingEnabled := false },
     { bAnselSessionActive := true, bAnselCaptureActive := true,
       bAutoPostprocess := true }, []⟩ {} rfl rfl rfl
  exact ⟨h.1, (h.2 { captureType := .stereo } {}).2.1⟩

/-- C4 (amended): when the console manager does not know a variable, the
operation is logged and/or skipped with no state change:
`SetCapturedCVarPredicated` appends "CVar used by Ansel not found" to the
log and leaves engine and provider state untouched, and each of the seven
Blueprint setters returns the store unchanged with no effects.  (The
claim's extension to `ConstrainCameraByGeometry` fails: that function
dereferences its CVar lookup without a null check — see the
counterexample.) -/
theorem missing_cvar_logged_and_skipped (s : GState) (name : String)
    (val : ℚ) (cmp : ℚ → ℚ → Bool) (wr prio : Bool) (st : CVarStore)
    (bAllowed b1 b2 : Bool) (n : ℤ) (q1 q2 q3 : ℚ) :
    (alookup s.ans.initialCVarMap name = none →
     alookup s.eng.cvars name = none →
     setCapturedCVarPredicated s name val cmp wr prio =
       { s with log := s.log ++ ["CVar used by Ansel not found: " ++ name] }) ∧
    (alookup st "r.Photography.Allow" = none →
      UAnselFunctionLibrary.SetIsPhotographyAllowed bAllowed st = (st, [])) ∧
    (alookup st "r.Photography.SettleFrames" = none →
      UAnselFunctionLibrary.SetSettleFrames n st = (st, [])) ∧
    (alookup st "r.Photography.TranslationSpeed" = none →
      UAnselFunctionLibrary.SetCameraMovementSpeed q1 st = (st, [])) ∧
    (alookup st "r.Photography.Constrain.CameraSize" = none →
      UAnselFunctionLibrary.SetCameraConstraintCameraSize q2 st = (st, [])) ∧
    (alookup st "r.Photography.Constrain.MaxCameraDistance" = none →
      UAnselFunctionLibrary.SetCameraConstraintDistance q3 st = (st, [])) ∧
    (alookup st "r.Photography.AutoPostprocess" = none →
      UAnselFunctionLibrary.SetAutoPostprocess b1 st = (st, [])) ∧
    (alookup st "r.Photography.AutoPause" = none →
      UAnselFunctionLibrary.SetAutoPause b2 st = (st, [])) := by
  refine ⟨?_, ?_, ?_, ?_, ?_, ?_, ?_, ?_⟩
  · intro hm hc
    unfold setCapturedCVarPredicated
    rw [hm, hc]
  · intro h
    unfold UAnselFunctionLibrary.SetIsPhotographyAllowed
    rw [h]
  · intro h
    unfold UAnselFunctionLibrary.SetSettleFrames
    rw [h]
  · intro h
    unfold UAnselFunctionLibrary.SetCameraMovementSpeed
    rw [h]
  · intro h
    unfold UAnselFunctionLibrary.SetCameraConstraintCameraSize
    rw [h]
  · intro h
    unfold UAnselFunctionLibrary.SetCameraConstraintDistance
    rw [h]
  · intro h
    unfold UAnselFunctionLibrary.SetAutoPostprocess
    rw [h]
  · intro h
    unfold UAnselFunctionLibrary.SetAutoPause
    rw [h]

theorem missing_cvar_logged_and_skipped_witness :
    setCapturedCVarPredicated
      ⟨{ cvars := [], paused := false, timeDilation := 1,
         cameraMovableWhenPaused := false, screenMessagesEnabled := false,
         hudExists := false, showingHUD := false, subtitlesEnabled := false,
         fadingEnabled := false }, {}, []⟩
      "r.NoSuchVar" 5 (fun _ _ => true) false false =
      ⟨{ cvars := [], paused := false, timeDilation := 1,
         cameraMovableWhenPaused := false, screenMessagesEnabled := false,
         hudExists := false, showingHUD := false, subtitlesEnabled := false,
         fadingEnabled := false }, {},
       ["CVar used by Ansel not found: r.NoSuchVar"]⟩ ∧
    UAnselFunctionLibrary.SetIsPhotographyAllowed true [] = ([], []) ∧
    UAnselFunctionLibrary.SetSettleFrames 10 [] = ([], []) ∧
    UAnselFunctionLibrary.SetCameraMovementSpeed 2 [] = ([], []) ∧
    UAnselFunctionLibrary.SetCameraConstraintCameraSize 3 [] = ([], []) ∧
    UAnselFunctionLibrary.SetCameraConstraintDistance 4 [] = ([], []) ∧
    UAnselFunctionLibrary.SetAutoPostprocess true [] = ([], []) ∧
    UAnselFunctionLibrary.SetAutoPause true [] = ([], []) := by
  have h := missing_cvar_logged_and_skipped
    ⟨{ cvars := [], paused := false, timeDilation := 1,
       cameraMovableWhenPaused := false, screenMessagesEnabled := false,
       hudExists := false, showingHUD := false, subtitlesEnabled := false,
       fadingEnabled := false }, {}, []⟩
    "r.NoSuchVar" 5 (fun _ _ => true) false false [] true true true 10 2 3 4
  exact ⟨h.1 rfl rfl, h.2.1 rfl, h.2.2.1 rfl, h.2.2.2.1 rfl, h.2.2.2.2.1 rfl,
         h.2.2.2.2.2.1 rfl, h.2.2.2.2.2.2.1 rfl, h.2.2.2.2.2.2.2 rfl⟩

/-- C4 counterexample: `ConstrainCameraByGeometry` looks up
`r.Photography.Constrain.CameraSize` and dereferences the result without
a null check, so a missing CVar is a crash (modelled `none`), not a
logged skip. -/
theorem missing_cvar_geometry_counterexample :
    UAnselFunctionLibrary.ConstrainCameraByGeometry
      ⟨fun _ _ => false, fun _ _ _ => none⟩ []
      ⟨0, 0, 0⟩ ⟨0, 0, 0⟩ ⟨0, 0, 0⟩ ⟨0, 0, 0⟩ = none := rfl

/-- C8 (amended): the nine query/set Blueprint functions only read or
write their named console variable (their effect traces are pure CVar
reads/writes), but `StartSession`, `StopSession` and
`SetUIControlVisibility` instead forward to the photography manager,
leaving the CVar store untouched. -/
theorem blueprint_cvar_only (st : CVarStore) (b b1 b2 mgr : Bool) (n : ℤ)
    (q1 q2 q3 : ℚ) :
    onlyCVarEffects (UAnselFunctionLibrary.IsPhotographyAvailable st).2 = true ∧
    onlyCVarEffects (UAnselFunctionLibrary.IsPhotographyAllowed st).2 = true ∧
    onlyCVarEffects (UAnselFunctionLibrary.SetIsPhotographyAllowed b st).2 = true ∧
    onlyCVarEffects (UAnselFunctionLibrary.SetSettleFrames n st).2 = true ∧
    onlyCVarEffects (UAnselFunctionLibrary.SetCameraMovementSpeed q1 st).2 = true ∧
    onlyCVarEffects (UAnselFunctionLibrary.SetCameraConstraintCameraSize q2 st).2 = true ∧
    onlyCVarEffects (UAnselFunctionLibrary.SetCameraConstraintDistance q3 st).2 = true ∧
    onlyCVarEffects (UAnselFunctionLibrary.SetAutoPostprocess b1 st).2 = true ∧
    onlyCVarEffects (UAnselFunctionLibrary.SetAutoPause b2 st).2 = true ∧
    UAnselFunctionLibrary.StartSession mgr st =
      (st, if mgr then [.managerStartSession] else []) ∧
    UAnselFunctionLibrary.StopSession mgr st =
      (st, if mgr then [.managerStopSession] else []) ∧
    UAnselFunctionLibrary.SetUIControlVisibility mgr st =
      (st, if mgr then [.managerSetUIControlVisibility] else []) := by
  refine ⟨?_, ?_, ?_, ?_, ?_, ?_, ?_, ?_, ?_, ?_, ?_, ?_⟩
  · unfold UAnselFunctionLibrary.IsPhotographyAvailable
    cases alookup st "r.Photography.Available" <;> rfl
  · unfold UAnselFunctionLibrary.IsPhotographyAllowed
    cases alookup st "r.Photography.Allow" <;> rfl
  · unfold UAnselFunctionLibrary.SetIsPhotographyAllowed
    cases alookup st "r.Photography.Allow" <;> rfl
  · unfold UAnselFunctionLibrary.SetSettleFrames
    cases alookup st "r.Photography.SettleFrames" <;> rfl
  · unfold UAnselFunctionLibrary.SetCameraMovementSpeed
    cases alookup st "r.Photography.TranslationSpeed" <;> rfl
  · unfold UAnselFunctionLibrary.SetCameraConstraintCameraSize
    cases alookup st "r.Photography.Constrain.CameraSize" <;> rfl
  · unfold UAnselFunctionLibrary.SetCameraConstraintDistance
    cases alookup st "r.Photography.Constrain.MaxCameraDistance" <;> rfl
  · unfold UAnselFunctionLibrary.SetAutoPostprocess
    cases alookup st "r.Photography.AutoPostprocess" <;> rfl
  · unfold UAnselFunctionLibrary.SetAutoPause
    cases alookup st "r.Photography.AutoPause" <;> rfl
  · unfold UAnselFunctionLibrary.StartSession
    cases mgr <;> rfl
  · unfold UAnselFunctionLibrary.StopSession
    cases mgr <;> rfl
  · unfold UAnselFunctionLibrary.SetUIControlVisibility
    cases mgr <;> rfl

/-- C8 counterexample: `StartSession` with a photography manager present
performs a manager call, not a CVar read or write, refuting "every
Blueprint-callable static function simply sets or reads a named console
variable". -/
theorem blueprint_manager_counterexample :
    onlyCVarEffects (UAnselFunctionLibrary.StartSession true []).2 = false := rfl

/-- C5: the geometry constraint accepts the proposed camera position by
default.  With the camera-size CVar found: a negative value returns
`NewCameraLocation` untouched (and leaves the tracked open space alone);
a nearly-zero sweep direction returns `NewCameraLocation`; an occupied
open-space origin keeps `NewCameraLocation` (unless the
direction-rejection test fires); and in every successful run the output
is `NewCameraLocation`, `PreviousCameraLocation` (direction rejection),
or the blocking sweep's hit location — nothing else. -/
theorem geometry_default_accept (w : WorldCtx) (st : CVarStore)
    (newLoc prevLoc origLoc last0 : V3) (c : ℚ) :
    (alookup st "r.Photography.Constrain.CameraSize" = some c → c < 0 →
      UAnselFunctionLibrary.ConstrainCameraByGeometry w st newLoc prevLoc
        origLoc last0 =
        some ⟨newLoc, last0, [.cvarRead "r.Photography.Constrain.CameraSize"]⟩) ∧
    (alookup st "r.Photography.Constrain.CameraSize" = some c → ¬c < 0 →
      isNearlyZero (v3sub newLoc
        (if prevLoc = origLoc then origLoc else last0)) = true →
      UAnselFunctionLibrary.ConstrainCameraByGeometry w st newLoc prevLoc
        origLoc last0 =
        some ⟨newLoc, (if prevLoc = origLoc then origLoc else last0),
          [.cvarRead "r.Photography.Constrain.CameraSize"]⟩) ∧
    (alookup st "r.Photography.Constrain.CameraSize" = some c → ¬c < 0 →
      isNearlyZero (v3sub newLoc
        (if prevLoc = origLoc then origLoc else last0)) = false →
      w.overlapAnyTest (if prevLoc = origLoc then origLoc else last0) c = true →
      ¬v3dot (v3sub newLoc prevLoc) (v3sub newLoc prevLoc) ≤ 0 →
      Option.map GeoResult.out
        (UAnselFunctionLibrary.ConstrainCameraByGeometry w st newLoc prevLoc
          origLoc last0) = some newLoc) ∧
    (∀ g : GeoResult,
      UAnselFunctionLibrary.ConstrainCameraByGeometry w st newLoc prevLoc
        origLoc last0 = some g →
      g.out = newLoc ∨ g.out = prevLoc ∨
      ∃ c' hit, alookup st "r.Photography.Constrain.CameraSize" = some c' ∧
        w.sweepSingle (if prevLoc = origLoc then origLoc else last0) newLoc c' =
          some hit ∧
        g.out = hit) := by
  refine ⟨?_, ?_, ?_, ?_⟩
  · intro hc hneg
    unfold UAnselFunctionLibrary.ConstrainCameraByGeometry
    rw [hc]
    dsimp only
    rw [if_pos hneg]
  · intro hc hnn hz
    unfold UAnselFunctionLibrary.ConstrainCameraByGeometry
    rw [hc]
    dsimp only
    rw [if_neg hnn, if_pos hz]
  · intro hc hnn hz hocc hdot
    unfold UAnselFunctionLibrary.ConstrainCameraByGeometry
    rw [hc]
    dsimp only
    rw [if_neg hnn, if_neg (by rw [hz]; exact fun hh => Bool.noConfusion hh)]
    dsimp only [Option.map]
    rw [if_pos hocc, if_neg hdot]
  · intro g hg
    unfold UAnselFunctionLibrary.ConstrainCameraByGeometry at hg
    cases hca : alookup st "r.Photography.Constrain.CameraSize" with
    | none =>
        rw [hca] at hg
        exact absurd hg (by simp)
    | some c2 =>
        rw [hca] at hg
        dsimp only at hg
        by_cases hneg : c2 < 0
        · rw [if_pos hneg] at hg
          exact Or.inl (congrArg GeoResult.out (Option.some.inj hg)).symm
        · rw [if_neg hneg] at hg
          by_cases hz : isNearlyZero (v3sub newLoc
              (if prevLoc = origLoc then origLoc else last0)) = true
          · rw [if_pos hz] at hg
            exact Or.inl (congrArg GeoResult.out (Option.some.inj hg)).symm
          · rw [if_neg hz] at hg
            have hout := (congrArg GeoResult.out (Option.some.inj hg)).symm
            dsimp only at hout
            by_cases hocc : w.overlapAnyTest
                (if prevLoc = origLoc then origLoc else last0) c2 = true
            · rw [if_pos hocc] at hout
              by_cases hdot : v3dot (v3sub newLoc prevLoc)
                  (v3sub newLoc prevLoc) ≤ 0
              · rw [if_pos hdot] at hout
                exact Or.inr (Or.inl hout)
              · rw [if_neg hdot] at hout
                exact Or.inl hout
            · rw [if_neg hocc] at hout
              cases hsw : w.sweepSingle
                  (if prevLoc = origLoc then origLoc else last0) newLoc c2 with
              | some hit =>
                  rw [hsw] at hout
                  dsimp only at hout
                  by_cases hdot : v3dot (v3sub hit prevLoc)
                      (v3sub newLoc prevLoc) ≤ 0
                  · rw [if_pos hdot] at hout
                    exact Or.inr (Or.inl hout)
                  · rw [if_neg hdot] at hout
                    exact Or.inr (Or.inr ⟨c2, hit, rfl, hsw, hout⟩)
              | none =>
                  rw [hsw] at hout
                  dsimp only at hout
                  by_cases hdot : v3dot (v3sub newLoc prevLoc)
                      (v3sub newLoc prevLoc) ≤ 0
                  · rw [if_pos hdot] at hout
                    exact Or.inr (Or.inl hout)
                  · rw [if_neg hdot] at hout
                    exact Or.inl hout

theorem geometry_default_accept_witness :
    UAnselFunctionLibrary.ConstrainCameraByGeometry
      ⟨fun _ _ => false, fun _ _ _ => none⟩
      [("r.Photography.Constrain.CameraSize", -1)]
      ⟨5, 0, 0⟩ ⟨0, 0, 0⟩ ⟨0, 0, 0⟩ ⟨0, 0, 0⟩ =
      some ⟨⟨5, 0, 0⟩, ⟨0, 0, 0⟩,
        [.cvarRead "r.Photography.Constrain.CameraSize"]⟩ ∧
    UAnselFunctionLibrary.ConstrainCameraByGeometry
      ⟨fun _ _ => false, fun _ _ _ => none⟩
      [("r.Photography.Constrain.CameraSize", 1)]
      ⟨0, 0, 0⟩ ⟨0, 0, 0⟩ ⟨0, 0, 0⟩ ⟨0, 0, 0⟩ =
      some ⟨⟨0, 0, 0⟩, ⟨0, 0, 0⟩,
        [.cvarRead "r.Photography.Constrain.CameraSize"]⟩ ∧
    Option.map GeoResult.out
      (UAnselFunctionLibrary.ConstrainCameraByGeometry
        ⟨fun _ _ => true, fun _ _ _ => none⟩
        [("r.Photography.Constrain.CameraSize", 1)]
        ⟨1, 0, 0⟩ ⟨0, 0, 0⟩ ⟨0, 0, 0⟩ ⟨0, 0, 0⟩) = some ⟨1, 0, 0⟩ ∧
    ((⟨⟨1, 0, 0⟩, ⟨0, 0, 0⟩,
        [.cvarRead "r.Photography.Constrain.CameraSize", .collisionOverlapTest,
         .collisionOverlapTest, .collisionOverlapTest]⟩ : GeoResult).out =
        ⟨1, 0, 0⟩ ∨
     (⟨⟨1, 0, 0⟩, ⟨0, 0, 0⟩,
        [.cvarRead "r.Photography.Constrain.CameraSize", .collisionOverlapTest,
         .collisionOverlapTest, .collisionOverlapTest]⟩ : GeoResult).out =
        ⟨0, 0, 0⟩ ∨
     ∃ c' hit,
       alookup [("r.Photography.Constrain.CameraSize", 1)]
         "r.Photography.Constrain.CameraSize" = some c' ∧
       (⟨fun _ _ => true, fun _ _ _ => none⟩ : WorldCtx).sweepSingle
         (if (⟨0, 0, 0⟩ : V3) = ⟨0, 0, 0⟩ then (⟨0, 0, 0⟩ : V3) else ⟨0, 0, 0⟩)
         ⟨1, 0, 0⟩ c' = some hit ∧
       (⟨⟨1, 0, 0⟩, ⟨0, 0, 0⟩,
          [.cvarRead "r.Photography.Constrain.CameraSize", .collisionOverlapTest,
           .collisionOverlapTest, .collisionOverlapTest]⟩ : GeoResult).out =
         hit) := by
  refine ⟨?_, ?_, ?_, ?_⟩
  · exact (geometry_default_accept ⟨fun _ _ => false, fun _ _ _ => none⟩
      [("r.Photography.Constrain.CameraSize", -1)]
      ⟨5, 0, 0⟩ ⟨0, 0, 0⟩ ⟨0, 0, 0⟩ ⟨0, 0, 0⟩ (-1)).1 rfl (by decide)
  · exact (geometry_default_accept ⟨fun _ _ => false, fun _ _ _ => none⟩
      [("r.Photography.Constrain.CameraSize", 1)]
      ⟨0, 0, 0⟩ ⟨0, 0, 0⟩ ⟨0, 0, 0⟩ ⟨0, 0, 0⟩ 1).2.1 rfl (by decide)
      (by norm_num [isNearlyZero, v3sub])
  · exact (geometry_default_accept ⟨fun _ _ => true, fun _ _ _ => none⟩
      [("r.Photography.Constrain.CameraSize", 1)]
      ⟨1, 0, 0⟩ ⟨0, 0, 0⟩ ⟨0, 0, 0⟩ ⟨0, 0, 0⟩ 1).2.2.1 rfl (by decide)
      (by norm_num [isNearlyZero, v3sub]) rfl (by norm_num [v3dot, v3sub])
  · exact (geometry_default_accept ⟨fun _ _ => true, fun _ _ _ => none⟩
      [("r.Photography.Constrain.CameraSize", 1)]
      ⟨1, 0, 0⟩ ⟨0, 0, 0⟩ ⟨0, 0, 0⟩ ⟨0, 0, 0⟩ 1).2.2.2
      ⟨⟨1, 0, 0⟩, ⟨0, 0, 0⟩,
       [.cvarRead "r.Photography.Constrain.CameraSize", .collisionOverlapTest,
        .collisionOverlapTest, .collisionOverlapTest]⟩
      (by unfold UAnselFunctionLibrary.ConstrainCameraByGeometry
          norm_num [alookup, isNearlyZero, v3sub, v3dot, v3add])

/-- `FVector` algebra for the distance clamp. -/
theorem rv3_addsub (a x : RV3) : rv3sub (rv3add a x) a = x := by
  cases a with
  | mk ax ay az =>
      cases x with
      | mk xx xy xz =>
          simp only [rv3add, rv3sub, RV3.mk.injEq]
          refine ⟨by ring, by ring, by ring⟩

theorem sizeSquared_smul (c : ℝ) (v : RV3) :
    sizeSquared (rv3smul c v) = c ^ 2 * sizeSquared v := by
  unfold sizeSquared rv3smul
  ring

/-- C6: `ConstrainCameraByDistance` is pure vector clamping: a negative
bound returns `NewCameraLocation` unchanged; a non-negative bound returns
`OriginalCameraLocation` plus the movement vector clamped to magnitude at
most `MaxDistance`, so the output never lies farther than `MaxDistance`
from the original location; and `PreviousCameraLocation` has no effect on
the result. -/
theorem distance_clamp (newLoc prevLoc prevLoc2 origLoc : RV3) (M : ℝ) :
    (M < 0 →
      UAnselFunctionLibrary.ConstrainCameraByDistance newLoc prevLoc origLoc M =
        newLoc) ∧
    (0 ≤ M →
      UAnselFunctionLibrary.ConstrainCameraByDistance newLoc prevLoc origLoc M =
        rv3add origLoc (getClampedToMaxSize (rv3sub newLoc origLoc) M)) ∧
    (0 ≤ M →
      sizeSquared (rv3sub
        (UAnselFunctionLibrary.ConstrainCameraByDistance newLoc prevLoc origLoc M)
        origLoc) ≤ M ^ 2) ∧
    UAnselFunctionLibrary.ConstrainCameraByDistance newLoc prevLoc origLoc M =
      UAnselFunctionLibrary.ConstrainCameraByDistance newLoc prevLoc2 origLoc M := by
  refine ⟨?_, ?_, ?_, rfl⟩
  · intro h
    unfold UAnselFunctionLibrary.ConstrainCameraByDistance
    rw [if_pos h]
  · intro h
    unfold UAnselFunctionLibrary.ConstrainCameraByDistance
    rw [if_neg (not_lt.mpr h)]
  · intro h
    unfold UAnselFunctionLibrary.ConstrainCameraByDistance
    rw [if_neg (not_lt.mpr h), rv3_addsub]
    unfold getClampedToMaxSize
    split_ifs with h1 h2
    · simpa [sizeSquared] using sq_nonneg M
    · have hS : (0 : ℝ) < sizeSquared (rv3sub newLoc origLoc) :=
        lt_of_le_of_lt (sq_nonneg M) h2
      exact le_of_eq (by
        rw [sizeSquared_smul, mul_pow, inv_pow, Real.sq_sqrt hS.le, mul_assoc,
          inv_mul_cancel₀ (ne_of_gt hS), mul_one])
    · exact not_lt.mp h2

theorem distance_clamp_witness :
    UAnselFunctionLibrary.ConstrainCameraByDistance
      ⟨3, 0, 0⟩ ⟨7, 7, 7⟩ ⟨0, 0, 0⟩ (-1) = ⟨3, 0, 0⟩ ∧
    sizeSquared (rv3sub
      (UAnselFunctionLibrary.ConstrainCameraByDistance
        ⟨3, 0, 0⟩ ⟨7, 7, 7⟩ ⟨0, 0, 0⟩ 5) ⟨0, 0, 0⟩) ≤ 5 ^ 2 := by
  exact ⟨(distance_clamp ⟨3, 0, 0⟩ ⟨7, 7, 7⟩ ⟨8, 8, 8⟩ ⟨0, 0, 0⟩ (-1)).1
           (by norm_num),
         (distance_clamp ⟨3, 0, 0⟩ ⟨7, 7, 7⟩ ⟨8, 8, 8⟩ ⟨0, 0, 0⟩ 5).2.2.1
           (by norm_num)⟩

end Ansel
